import Mathlib

set_option maxHeartbeats 1000000

/-!
Shallow embedding of the EduSmart AI HTTP gateway.

The repository contains two near-duplicate Express servers that forward
educational-content requests to the OpenRouter completion API:

* `src/backend/server.js` — embedded below in namespace `ServerJs`;
* `src/unnamed/part_000`  — embedded below in namespace `Part000`.

The upstream completion API is modelled as an oracle value of type
`UpstreamOutcome` passed to each handler; the requests a handler issues to
the upstream API are returned explicitly as a `List UpstreamRequest`, so
"no upstream call is made" is the statement that this list is empty.

Wall-clock timestamps (`new Date().toISOString()`) and the logging side
channel (`console.error`) are omitted from the model; neither is observable
in a response body apart from the timestamp string, and no claim is about
them.  JS `undefined` body fields are modelled with `Option`.
-/

deriving instance DecidableEq for Except

/-- JS string interpolation of a possibly-undefined value: a template
literal renders `undefined` as the string "undefined". -/
def jsShow (o : Option String) : String := o.getD "undefined"

/-- One chat-completion request issued to the OpenRouter API.  The
temperature is recorded in tenths (`7` for the literal `0.7` in the
source) to keep the embedding over exact arithmetic. -/
structure UpstreamRequest where
  model : String
  systemContent : String
  userContent : Option String
  temperatureTenths : Nat
  maxTokens : Nat
  deriving DecidableEq

/-- Oracle for one upstream completion call: either the call resolves with
`completion.choices[0]?.message?.content` (possibly absent) and
`completion.usage?.total_tokens`, or it rejects with an error carrying an
optional HTTP status and a raw message. -/
inductive UpstreamOutcome where
  | success (content : Option String) (totalTokens : Option Nat)
  | failure (status : Option Nat) (message : String)
  deriving DecidableEq

/-- A JS exception as thrown inside the generator `try` blocks: the
`error.status` field (absent on plain `Error`s) and `error.message`. -/
structure ThrownError where
  status : Option Nat
  message : String
  deriving DecidableEq

/-- Observable HTTP response of an endpoint handler, parameterised by the
JSON payload type of its 200 branch.  `pdf` records the streamed document
content and the two headers set in `generatePDF`; `rateLimited` is the
express-rate-limit rejection. -/
inductive HandlerResponse (ρ : Type) where
  | badRequest (error : String)
  | serverError (error : String)
  | ok (payload : ρ)
  | pdf (content contentType contentDisposition : String)
  | rateLimited (message : String)
  deriving DecidableEq

/-- HTTP status code of each response shape. -/
def HandlerResponse.status {ρ : Type} : HandlerResponse ρ → Nat
  | .badRequest _ => 400
  | .serverError _ => 500
  | .ok _ => 200
  | .pdf _ _ _ => 200
  | .rateLimited _ => 429

namespace ServerJs

/-- The `modelMap` object literal of `src/backend/server.js`. -/
def modelMap (pref : String) : Option String :=
  if pref = "assignment" then some "google/gemini-2.0-flash-exp:free"
  else if pref = "long" then some "google/gemini-2.0-flash-exp:free"
  else if pref = "short" then some "qwen/qwen3-coder:free"
  else if pref = "quiz" then some "z-ai/glm-4.5-air:free"
  else if pref = "grammar" then some "qwen/qwen3-coder:free"
  else if pref = "chat" then some "z-ai/glm-4.5-air:free"
  else if pref = "auto" then some "google/gemini-2.0-flash-exp:free"
  else none

/-- Model selection `modelMap[modelPreference] || modelMap.auto`. -/
def selectModel (pref : String) : String :=
  (modelMap pref).getD "google/gemini-2.0-flash-exp:free"

/-- Value returned by `generateAIResponse` on success (the `timestamp`
field, a wall-clock reading, is omitted from the model). -/
structure GenResult where
  text : String
  source : String
  modelUsed : String
  tokens : Nat
  deriving DecidableEq

/-- Body of the `try` block of `generateAIResponse`: read the content out
of the completion, throwing `Empty response from AI model` when it is
absent or empty (JS `!result`), or rethrow the client error. -/
def tryBody (model : String) (u : UpstreamOutcome) : Except ThrownError GenResult :=
  match u with
  | .failure st msg => .error ⟨st, msg⟩
  | .success content totalTokens =>
    match content with
    | none => .error ⟨none, "Empty response from AI model"⟩
    | some c =>
      if c = "" then .error ⟨none, "Empty response from AI model"⟩
      else .ok ⟨c, "openrouter", model, totalTokens.getD 0⟩

/-- The `catch` block of `generateAIResponse`: the message of the error it
rethrows, a function of `error.status` and the selected model only — the
own message of the caught error goes to `console.error` and nowhere else. -/
def catchMessage (model : String) (e : ThrownError) : String :=
  if e.status = some 401 then
    "Authentication failed. Please check your API key configuration."
  else if e.status = some 429 then
    "Rate limit exceeded. Please try again later."
  else if e.status = some 404 then
    "Model \x27" ++ model ++ "\x27 not found. Please check model name or contact support."
  else
    "AI service is currently unavailable. Please try again later."

/-- Function `generateAIResponse(prompt, context, modelPreference)` of
`src/backend/server.js`, with the upstream call abstracted by the oracle
`u`; the first component lists the upstream requests actually issued. -/
def generateAIResponse (prompt context pref : String) (u : UpstreamOutcome) :
    List UpstreamRequest × Except String GenResult :=
  if prompt = "" ∨ context = "" then
    ([], .error "Prompt and context are required")
  else
    ([⟨selectModel pref, context, some prompt, 7, 2048⟩],
      match tryBody (selectModel pref) u with
      | .ok g => .ok g
      | .error e => .error (catchMessage (selectModel pref) e))

/-- Filename sanitization of `generatePDF`:
`title.toLowerCase().replace(/[^a-zA-Z0-9]/g, '-')` (JS `toLowerCase` is
modelled on its ASCII fragment by `Char.toLower`). -/
def sanitizeFilename (title : String) : String :=
  String.mk ((title.data.map Char.toLower).map (fun c => if c.isAlphanum then c else '-'))

/-- The observable effect of `generatePDF(content, res, title)`: the two
headers it sets and the streamed document content. -/
def pdfResponse {ρ : Type} (content title : String) : HandlerResponse ρ :=
  .pdf content "application/pdf"
    ("attachment; filename=\"" ++ sanitizeFilename title ++ ".pdf\"")

/-- Request body and query of `POST /generate-assignment`. -/
structure AssignmentReq where
  prompt : Option String
  level : Option String
  subject : Option String
  download : Option String
  deriving DecidableEq

/-- The system context template of `/generate-assignment`. -/
def assignmentContext (level subject prompt : String) : String :=
  "You are an expert educator creating assignments. \n    Create a comprehensive assignment for " ++ level ++ " level " ++ subject ++ " students on \"" ++ prompt ++ "\".\n    Include: Learning objectives, Instructions, Tasks/Questions, Evaluation criteria, \n    and Submission guidelines. Use clear, academic language."

/-- The `generateAIResponse` invocation made by `/generate-assignment`
once validation has passed. -/
def assignmentCall (req : AssignmentReq) (u : UpstreamOutcome) :
    List UpstreamRequest × Except String GenResult :=
  generateAIResponse (req.prompt.getD "")
    (assignmentContext (req.level.getD "high-school") (req.subject.getD "General")
      (req.prompt.getD ""))
    "assignment" u

/-- JSON body of a successful `/generate-assignment` response. -/
structure AssignmentPayload where
  text : String
  source : String
  modelUsed : String
  tokens : Nat
  type : String
  subject : String
  level : String
  wordCount : Nat
  deriving DecidableEq

/-- Endpoint `POST /generate-assignment`. -/
def assignmentHandler (req : AssignmentReq) (u : UpstreamOutcome) :
    List UpstreamRequest × HandlerResponse AssignmentPayload :=
  if req.prompt.getD "" = "" then
    ([], .badRequest "Prompt is required")
  else
    ((assignmentCall req u).1,
      match (assignmentCall req u).2 with
      | .error e => .serverError e
      | .ok g =>
        if req.download = some "pdf" then
          pdfResponse g.text ("Assignment - " ++ req.prompt.getD "")
        else
          .ok ⟨g.text, g.source, g.modelUsed, g.tokens, "assignment",
            req.subject.getD "General", req.level.getD "high-school",
            (g.text.splitOn " ").length⟩)

/-- Request body and query of `POST /generate-long-answer`. -/
structure LongAnswerReq where
  prompt : Option String
  wordCount : Option String
  download : Option String
  deriving DecidableEq

/-- The system context template of `/generate-long-answer`. -/
def longAnswerContext (wordCount prompt : String) : String :=
  "Provide a detailed " ++ wordCount ++ " word comprehensive explanation on \"" ++ prompt ++ "\".\n    Structure with: Introduction, Main Body (with subheadings), Examples, and Conclusion.\n    Use academic language and ensure factual accuracy."

/-- The `generateAIResponse` invocation made by `/generate-long-answer`. -/
def longAnswerCall (req : LongAnswerReq) (u : UpstreamOutcome) :
    List UpstreamRequest × Except String GenResult :=
  generateAIResponse (req.prompt.getD "")
    (longAnswerContext (req.wordCount.getD "300-500") (req.prompt.getD ""))
    "long" u

/-- JSON body of a successful `/generate-long-answer` response. -/
structure LongAnswerPayload where
  text : String
  source : String
  modelUsed : String
  tokens : Nat
  type : String
  wordCount : String
  readingTime : String
  deriving DecidableEq

/-- Endpoint `POST /generate-long-answer`; `readingTime` is
`Math.ceil(words / 200)` suffixed with ` minutes`. -/
def longAnswerHandler (req : LongAnswerReq) (u : UpstreamOutcome) :
    List UpstreamRequest × HandlerResponse LongAnswerPayload :=
  if req.prompt.getD "" = "" then
    ([], .badRequest "Prompt is required")
  else
    ((longAnswerCall req u).1,
      match (longAnswerCall req u).2 with
      | .error e => .serverError e
      | .ok g =>
        if req.download = some "pdf" then
          pdfResponse g.text ("Long Answer - " ++ req.prompt.getD "")
        else
          .ok ⟨g.text, g.source, g.modelUsed, g.tokens, "long-answer",
            req.wordCount.getD "300-500",
            toString (((g.text.splitOn " ").length + 199) / 200) ++ " minutes"⟩)

/-- Request body of `POST /generate-short-answer`. -/
structure ShortAnswerReq where
  prompt : Option String
  deriving DecidableEq

/-- The system context template of `/generate-short-answer`. -/
def shortAnswerContext (prompt : String) : String :=
  "Provide a concise, accurate 2-3 sentence answer to \"" ++ prompt ++ "\".\n    Be direct, factual, and focus on the essential information only."

/-- The `generateAIResponse` invocation made by `/generate-short-answer`. -/
def shortAnswerCall (req : ShortAnswerReq) (u : UpstreamOutcome) :
    List UpstreamRequest × Except String GenResult :=
  generateAIResponse (req.prompt.getD "") (shortAnswerContext (req.prompt.getD "")) "short" u

/-- JSON body of a successful `/generate-short-answer` response;
`sentenceCount` is `(text.match(/\./g) || []).length`, the number of
full-stop characters in the text. -/
structure ShortAnswerPayload where
  text : String
  source : String
  modelUsed : String
  tokens : Nat
  type : String
  sentenceCount : Nat
  deriving DecidableEq

/-- Endpoint `POST /generate-short-answer` (no PDF export branch in the source). -/
def shortAnswerHandler (req : ShortAnswerReq) (u : UpstreamOutcome) :
    List UpstreamRequest × HandlerResponse ShortAnswerPayload :=
  if req.prompt.getD "" = "" then
    ([], .badRequest "Prompt is required")
  else
    ((shortAnswerCall req u).1,
      match (shortAnswerCall req u).2 with
      | .error e => .serverError e
      | .ok g =>
        .ok ⟨g.text, g.source, g.modelUsed, g.tokens, "short-answer",
          g.text.data.count '.'⟩)

/-- Request body and query of `POST /generate-quiz`. -/
structure QuizReq where
  prompt : Option String
  difficulty : Option String
  questionCount : Option Nat
  quizType : Option String
  download : Option String
  deriving DecidableEq

/-- The system context template of `/generate-quiz`. -/
def quizContext (questionCount : Nat) (quizType prompt difficulty : String) : String :=
  "Generate a " ++ toString questionCount ++ "-question " ++ quizType ++ " quiz on \"" ++ prompt ++ "\" at " ++ difficulty ++ " difficulty.\n    Include: Multiple choice (MCQ), True/False, and Short answer questions.\n    Format each question clearly with answers at the end.\n    Add a brief explanation for each answer."

/-- The `generateAIResponse` invocation made by `/generate-quiz`. -/
def quizCall (req : QuizReq) (u : UpstreamOutcome) :
    List UpstreamRequest × Except String GenResult :=
  generateAIResponse (req.prompt.getD "")
    (quizContext (req.questionCount.getD 5) (req.quizType.getD "mixed")
      (req.prompt.getD "") (req.difficulty.getD "medium"))
    "quiz" u

/-- JSON body of a successful `/generate-quiz` response. -/
structure QuizPayload where
  text : String
  source : String
  modelUsed : String
  tokens : Nat
  type : String
  difficulty : String
  questionCount : Nat
  quizType : String
  deriving DecidableEq

/-- Endpoint `POST /generate-quiz`. -/
def quizHandler (req : QuizReq) (u : UpstreamOutcome) :
    List UpstreamRequest × HandlerResponse QuizPayload :=
  if req.prompt.getD "" = "" then
    ([], .badRequest "Topic is required")
  else
    ((quizCall req u).1,
      match (quizCall req u).2 with
      | .error e => .serverError e
      | .ok g =>
        if req.download = some "pdf" then
          pdfResponse g.text ("Quiz - " ++ req.prompt.getD "")
        else
          .ok ⟨g.text, g.source, g.modelUsed, g.tokens, "quiz",
            req.difficulty.getD "medium", req.questionCount.getD 5,
            req.quizType.getD "mixed"⟩)

/-- Request body of `POST /fix-grammar`. -/
structure GrammarReq where
  text : Option String
  style : Option String
  deriving DecidableEq

/-- The system context template of `/fix-grammar`. -/
def grammarContext (style : String) : String :=
  "You are an expert editor. Improve the grammar, punctuation, clarity, \n    and " ++ style ++ " style of the following text while preserving the original meaning.\n    Return only the corrected version with improvements."

/-- The `generateAIResponse` invocation made by `/fix-grammar`. -/
def grammarCall (req : GrammarReq) (u : UpstreamOutcome) :
    List UpstreamRequest × Except String GenResult :=
  generateAIResponse (req.text.getD "") (grammarContext (req.style.getD "academic")) "grammar" u

/-- JSON body of a successful `/fix-grammar` response. -/
structure GrammarPayload where
  text : String
  source : String
  modelUsed : String
  tokens : Nat
  type : String
  originalLength : Nat
  correctedLength : Nat
  style : String
  deriving DecidableEq

/-- Endpoint `POST /fix-grammar` (no PDF export branch in the source). -/
def grammarHandler (req : GrammarReq) (u : UpstreamOutcome) :
    List UpstreamRequest × HandlerResponse GrammarPayload :=
  if req.text.getD "" = "" then
    ([], .badRequest "Text is required")
  else
    ((grammarCall req u).1,
      match (grammarCall req u).2 with
      | .error e => .serverError e
      | .ok g =>
        .ok ⟨g.text, g.source, g.modelUsed, g.tokens, "grammar-correction",
          (req.text.getD "").length, g.text.length, req.style.getD "academic"⟩)

/-- Slice `history.slice(-3)`: the last three entries (all of them when the
array has three or fewer). -/
def jsSliceLast3 {α : Type} (l : List α) : List α := l.drop (l.length - 3)

/-- Serialization `JSON.stringify` applied to the sliced history array; each history
entry is modelled by its serialized JSON text. -/
def jsonStringifyArr (entries : List String) : String :=
  "[" ++ String.intercalate "," entries ++ "]"

/-- Request body of `POST /chat`; `history` entries are modelled by their
serialized JSON text. -/
structure ChatReq where
  message : Option String
  history : Option (List String)
  studentLevel : Option String
  deriving DecidableEq

/-- The system context template of `/chat`. -/
def chatContext (studentLevel histJson : String) : String :=
  "You are an AI tutor for " ++ studentLevel ++ " students. \n    Be helpful, patient, and educational. Explain concepts clearly with relatable examples.\n    Keep responses engaging and appropriate for learners.\n    Current conversation history: " ++ histJson

/-- The `generateAIResponse` invocation made by `/chat`. -/
def chatCall (req : ChatReq) (u : UpstreamOutcome) :
    List UpstreamRequest × Except String GenResult :=
  generateAIResponse (req.message.getD "")
    (chatContext (req.studentLevel.getD "high-school")
      (jsonStringifyArr (jsSliceLast3 (req.history.getD []))))
    "chat" u

/-- JSON body of a successful `/chat` response. -/
structure ChatPayload where
  text : String
  source : String
  modelUsed : String
  tokens : Nat
  type : String
  studentLevel : String
  conversationLength : Nat
  deriving DecidableEq

/-- Endpoint `POST /chat` (no PDF export branch in the source). -/
def chatHandler (req : ChatReq) (u : UpstreamOutcome) :
    List UpstreamRequest × HandlerResponse ChatPayload :=
  if req.message.getD "" = "" then
    ([], .badRequest "Message is required")
  else
    ((chatCall req u).1,
      match (chatCall req u).2 with
      | .error e => .serverError e
      | .ok g =>
        .ok ⟨g.text, g.source, g.modelUsed, g.tokens, "tutor-response",
          req.studentLevel.getD "high-school",
          (req.history.getD []).length + 1⟩)

end ServerJs

/-- ECMAScript whitespace as stripped by `String.prototype.trim`: the
WhiteSpace and LineTerminator code points. -/
def isJsWhitespace (c : Char) : Bool :=
  c.val = 0x9 || c.val = 0xA || c.val = 0xB || c.val = 0xC || c.val = 0xD ||
  c.val = 0x20 || c.val = 0xA0 || c.val = 0x1680 ||
  (0x2000 ≤ c.val && c.val ≤ 0x200A) ||
  c.val = 0x2028 || c.val = 0x2029 || c.val = 0x202F || c.val = 0x205F ||
  c.val = 0x3000 || c.val = 0xFEFF

/-- Strip leading and trailing JS whitespace from a character list. -/
def jsTrimList (l : List Char) : List Char :=
  ((l.dropWhile isJsWhitespace).reverse.dropWhile isJsWhitespace).reverse

/-- JS `s.trim()`. -/
def jsTrim (s : String) : String := String.mk (jsTrimList s.data)

namespace Part000

/-- One row of the `taskConfig` table of `src/unnamed/part_000`: the model
and the name of the dedicated API-key whose client is used. -/
structure TaskCfg where
  model : String
  keyName : String
  deriving DecidableEq

/-- The `taskConfig` object literal. -/
def taskConfig (pref : String) : Option TaskCfg :=
  if pref = "short" then some ⟨"google/gemma-3n-e2b-it:free", "SHORT_ANSWER"⟩
  else if pref = "assignment" then some ⟨"google/gemini-2.0-flash-exp:free", "ASSIGNMENT"⟩
  else if pref = "long" then some ⟨"qwen/qwen3-coder:free", "LONG_ANSWER"⟩
  else if pref = "quiz" then some ⟨"z-ai/glm-4.5-air:free", "ALL_IN_ONE"⟩
  else if pref = "grammar" then some ⟨"z-ai/glm-4.5-air:free", "ALL_IN_ONE"⟩
  else if pref = "chat" then some ⟨"z-ai/glm-4.5-air:free", "ALL_IN_ONE"⟩
  else none

/-- Value returned on success by the `generateAIResponse` of this variant. -/
structure GenResult where
  text : String
  modelUsed : String
  deriving DecidableEq

/-- Body of the `try` block:
`completion.choices[0]?.message?.content?.trim()` followed by the
`AI response khaali mila.` throw when the trimmed result is falsy. -/
def tryBody (cfg : TaskCfg) (u : UpstreamOutcome) : Except ThrownError GenResult :=
  match u with
  | .failure st msg => .error ⟨st, msg⟩
  | .success content _ =>
    match content with
    | none => .error ⟨none, "AI response khaali mila."⟩
    | some c =>
      if jsTrim c = "" then .error ⟨none, "AI response khaali mila."⟩
      else .ok ⟨jsTrim c, cfg.model⟩

/-- Function `generateAIResponse(prompt, context, taskPreference)` of
`src/unnamed/part_000`.  An unknown task type fails before any upstream
call; every error caught from the call is rethrown as a fixed message
naming the key category, regardless of `error.status`. -/
def generateAIResponse (prompt : Option String) (context pref : String) (u : UpstreamOutcome) :
    List UpstreamRequest × Except String GenResult :=
  match taskConfig pref with
  | none => ([], .error ("❌ Unknown task type: " ++ pref))
  | some cfg =>
    ([⟨cfg.model, context, prompt, 7, 3000⟩],
      match tryBody cfg u with
      | .ok g => .ok g
      | .error _ => .error ("AI se response lene mein error: " ++ cfg.keyName))

/-- Filename sanitization of the `generatePDF` of this variant:
`title.toLowerCase().replace(/[^a-z0-9]/g, '-')`. -/
def sanitizeFilename (title : String) : String :=
  String.mk ((title.data.map Char.toLower).map (fun c =>
    if c.isLower || c.isDigit then c else '-'))

/-- Observable effect of the `generatePDF` of this variant. -/
def pdfResponse {ρ : Type} (content title : String) : HandlerResponse ρ :=
  .pdf content "application/pdf"
    ("attachment; filename=\"" ++ sanitizeFilename title ++ ".pdf\"")

/-- Request body and query fields read by the part_000 endpoints.  No
endpoint of this variant validates any of them. -/
structure Req where
  prompt : Option String
  text : Option String
  message : Option String
  download : Option String
  deriving DecidableEq

/-- Context template of the part_000 `/generate-assignment` endpoint. -/
def assignmentContext (prompt : Option String) : String :=
  "Create an assignment on \"" ++ jsShow prompt ++ "\"."

/-- The `generateAIResponse` invocation of `/generate-assignment`. -/
def assignmentCall (req : Req) (u : UpstreamOutcome) :
    List UpstreamRequest × Except String GenResult :=
  generateAIResponse req.prompt (assignmentContext req.prompt) "assignment" u

/-- Endpoint `POST /generate-assignment` of part_000: no validation of `prompt`. -/
def assignmentHandler (req : Req) (u : UpstreamOutcome) :
    List UpstreamRequest × HandlerResponse GenResult :=
  ((assignmentCall req u).1,
    match (assignmentCall req u).2 with
    | .error e => .serverError e
    | .ok g =>
      if req.download = some "pdf" then
        pdfResponse g.text ("Assignment - " ++ jsShow req.prompt)
      else .ok g)

/-- Context template of the part_000 `/generate-long-answer` endpoint. -/
def longAnswerContext (prompt : Option String) : String :=
  "Write a detailed long-form answer about \"" ++ jsShow prompt ++ "\"."

/-- The `generateAIResponse` invocation of `/generate-long-answer`. -/
def longAnswerCall (req : Req) (u : UpstreamOutcome) :
    List UpstreamRequest × Except String GenResult :=
  generateAIResponse req.prompt (longAnswerContext req.prompt) "long" u

/-- Endpoint `POST /generate-long-answer` of part_000: no validation of `prompt`. -/
def longAnswerHandler (req : Req) (u : UpstreamOutcome) :
    List UpstreamRequest × HandlerResponse GenResult :=
  ((longAnswerCall req u).1,
    match (longAnswerCall req u).2 with
    | .error e => .serverError e
    | .ok g =>
      if req.download = some "pdf" then
        pdfResponse g.text ("Long Answer - " ++ jsShow req.prompt)
      else .ok g)

/-- Context template of the part_000 `/generate-short-answer` endpoint. -/
def shortAnswerContext (prompt : Option String) : String :=
  "Give a short and crisp answer for \"" ++ jsShow prompt ++ "\"."

/-- The `generateAIResponse` invocation of `/generate-short-answer`. -/
def shortAnswerCall (req : Req) (u : UpstreamOutcome) :
    List UpstreamRequest × Except String GenResult :=
  generateAIResponse req.prompt (shortAnswerContext req.prompt) "short" u

/-- Endpoint `POST /generate-short-answer` of part_000: no validation, no PDF. -/
def shortAnswerHandler (req : Req) (u : UpstreamOutcome) :
    List UpstreamRequest × HandlerResponse GenResult :=
  ((shortAnswerCall req u).1,
    match (shortAnswerCall req u).2 with
    | .error e => .serverError e
    | .ok g => .ok g)

/-- Context template of the part_000 `/generate-quiz` endpoint. -/
def quizContext (prompt : Option String) : String :=
  "Generate a quiz on the topic \"" ++ jsShow prompt ++ "\"."

/-- The `generateAIResponse` invocation of `/generate-quiz`. -/
def quizCall (req : Req) (u : UpstreamOutcome) :
    List UpstreamRequest × Except String GenResult :=
  generateAIResponse req.prompt (quizContext req.prompt) "quiz" u

/-- Endpoint `POST /generate-quiz` of part_000: no validation, no PDF. -/
def quizHandler (req : Req) (u : UpstreamOutcome) :
    List UpstreamRequest × HandlerResponse GenResult :=
  ((quizCall req u).1,
    match (quizCall req u).2 with
    | .error e => .serverError e
    | .ok g => .ok g)

/-- The `generateAIResponse` invocation of `/fix-grammar`. -/
def grammarCall (req : Req) (u : UpstreamOutcome) :
    List UpstreamRequest × Except String GenResult :=
  generateAIResponse req.text "Correct the grammar of the given sentence." "grammar" u

/-- Endpoint `POST /fix-grammar` of part_000: no validation, no PDF. -/
def grammarHandler (req : Req) (u : UpstreamOutcome) :
    List UpstreamRequest × HandlerResponse GenResult :=
  ((grammarCall req u).1,
    match (grammarCall req u).2 with
    | .error e => .serverError e
    | .ok g => .ok g)

/-- The `generateAIResponse` invocation of `/chat`. -/
def chatCall (req : Req) (u : UpstreamOutcome) :
    List UpstreamRequest × Except String GenResult :=
  generateAIResponse req.message "You\x27re a friendly AI chatbot." "chat" u

/-- Endpoint `POST /chat` of part_000: no validation, no PDF. -/
def chatHandler (req : Req) (u : UpstreamOutcome) :
    List UpstreamRequest × HandlerResponse GenResult :=
  ((chatCall req u).1,
    match (chatCall req u).2 with
    | .error e => .serverError e
    | .ok g => .ok g)

end Part000

/-- Setting `windowMs: 15 * 60 * 1000` of the limiter configuration (both
variants). -/
def windowMs : Nat := 15 * 60 * 1000

/-- Setting `max: 100` of the limiter configuration (both variants). -/
def maxRequests : Nat := 100

/-- Modelled from the spec: the per-client fixed-window counter of the
express-rate-limit dependency (the library implementation is not part of
this repository; the spec describes a simple fixed-window request-rate
limiter of 100 requests per 15-minute window per client address). -/
structure LimiterState where
  windowStart : Nat
  count : Nat
  deriving DecidableEq

/-- Fresh limiter state for a client first seen at time `t`. -/
def initState (t : Nat) : LimiterState := ⟨t, 0⟩

/-- Modelled from the spec: one request hitting the fixed-window limiter
at time `now`; a request after the window expired starts a fresh window,
otherwise the counter is incremented and the request is accepted while
the counter stays within `max`. -/
def limiterStep (st : LimiterState) (now : Nat) : LimiterState × Bool :=
  if st.windowStart + windowMs ≤ now then
    (⟨now, 1⟩, 1 ≤ maxRequests)
  else
    (⟨st.windowStart, st.count + 1⟩, st.count + 1 ≤ maxRequests)

/-- Run a sequence of same-client requests through the limiter, collecting
the accept/reject verdicts. -/
def processRequests (st : LimiterState) : List Nat → LimiterState × List Bool
  | [] => (st, [])
  | t :: ts =>
    ((processRequests (limiterStep st t).1 ts).1,
      (limiterStep st t).2 :: (processRequests (limiterStep st t).1 ts).2)

/-- The limiter mount `app.use(/generate-*, limiter)` (both variants):
which request paths pass through the limiter at all. -/
def routeUsesLimiter (path : String) : Bool := path.take 10 = "/generate-"

/-- The configured rejection message of the server.js limiter. -/
def rateLimitMessage : String := "Too many requests from this IP, please try again later."

/-- One request through the middleware pipeline: paths matching the mount
are gated by the limiter, all other paths bypass it and always reach
their handler. -/
def gateStep (st : LimiterState) (now : Nat) (path : String) : LimiterState × Bool :=
  if routeUsesLimiter path then limiterStep st now
  else (st, true)

/-- Run a same-client request sequence (time, path) through the pipeline
gate, collecting whether each request reached its handler. -/
def gateSeq (st : LimiterState) : List (Nat × String) → LimiterState × List Bool
  | [] => (st, [])
  | r :: rs =>
    ((gateSeq (gateStep st r.1 r.2).1 rs).1,
      (gateStep st r.1 r.2).2 :: (gateSeq (gateStep st r.1 r.2).1 rs).2)

/-- Endpoint `/generate-assignment` behind the limiter: on rejection the handler is
never invoked, no upstream call is made, and express-rate-limit answers
with status 429 and the configured message. -/
def limitedAssignment (st : LimiterState) (now : Nat) (req : ServerJs.AssignmentReq)
    (u : UpstreamOutcome) :
    LimiterState × (List UpstreamRequest × HandlerResponse ServerJs.AssignmentPayload) :=
  if (limiterStep st now).2 then
    ((limiterStep st now).1, ServerJs.assignmentHandler req u)
  else
    ((limiterStep st now).1, ([], .rateLimited rateLimitMessage))

/-- The Content-Disposition header that claim C7 describes, following the
spec words: a filename derived from the title with all non-alphanumeric
characters removed.  This definition follows the spec, not the source,
and is compared against the source-derived `sanitizeFilename`. -/
def specRemovedDisposition (title : String) : String :=
  "attachment; filename=\"" ++ String.mk (title.data.filter (fun c => c.isAlphanum)) ++ ".pdf\""

theorem ne_empty_of_length_pos {s : String} (h : 0 < s.length) : s ≠ "" := by
  intro he
  subst he
  simp at h


namespace ServerJs

theorem assignmentContext_ne_empty (l s p : String) : assignmentContext l s p ≠ "" := by
  apply ne_empty_of_length_pos
  simp only [assignmentContext, String.length_append]
  have : 0 < ("You are an expert educator creating assignments. \n    Create a comprehensive assignment for " : String).length := by decide
  omega

theorem longAnswerContext_ne_empty (w p : String) : longAnswerContext w p ≠ "" := by
  apply ne_empty_of_length_pos
  simp only [longAnswerContext, String.length_append]
  have : 0 < ("Provide a detailed " : String).length := by decide
  omega

theorem shortAnswerContext_ne_empty (p : String) : shortAnswerContext p ≠ "" := by
  apply ne_empty_of_length_pos
  simp only [shortAnswerContext, String.length_append]
  have : 0 < ("Provide a concise, accurate 2-3 sentence answer to \"" : String).length := by decide
  omega

theorem quizContext_ne_empty (n : Nat) (q p d : String) : quizContext n q p d ≠ "" := by
  apply ne_empty_of_length_pos
  simp only [quizContext, String.length_append]
  have : 0 < ("Generate a " : String).length := by decide
  omega

theorem grammarContext_ne_empty (s : String) : grammarContext s ≠ "" := by
  apply ne_empty_of_length_pos
  simp only [grammarContext, String.length_append]
  have : 0 < ("You are an expert editor. Improve the grammar, punctuation, clarity, \n    and " : String).length := by decide
  omega

theorem chatContext_ne_empty (l h : String) : chatContext l h ≠ "" := by
  apply ne_empty_of_length_pos
  simp only [chatContext, String.length_append]
  have : 0 < ("You are an AI tutor for " : String).length := by decide
  omega

theorem gen_invalid (p c pref : String) (u : UpstreamOutcome) (h : p = "" ∨ c = "") :
    generateAIResponse p c pref u = ([], .error "Prompt and context are required") := by
  unfold generateAIResponse
  rw [if_pos h]

theorem gen_calls (p c pref : String) (u : UpstreamOutcome) (hp : p ≠ "") (hc : c ≠ "") :
    (generateAIResponse p c pref u).1 = [⟨selectModel pref, c, some p, 7, 2048⟩] := by
  unfold generateAIResponse
  rw [if_neg (by tauto)]

theorem gen_failure (p c pref : String) (st : Option Nat) (msg : String)
    (hp : p ≠ "") (hc : c ≠ "") :
    (generateAIResponse p c pref (.failure st msg)).2 =
      .error (catchMessage (selectModel pref) ⟨st, msg⟩) := by
  unfold generateAIResponse tryBody
  rw [if_neg (by tauto)]

theorem gen_empty_content (p c pref : String) (content : Option String) (tk : Option Nat)
    (hp : p ≠ "") (hc : c ≠ "") (h : content.getD "" = "") :
    (generateAIResponse p c pref (.success content tk)).2 =
      .error "AI service is currently unavailable. Please try again later." := by
  unfold generateAIResponse
  rw [if_neg (by tauto)]
  rcases content with _ | s
  · rfl
  · simp only [Option.getD_some] at h
    subst h
    rfl

theorem tryBody_ok_text (m : String) (u : UpstreamOutcome) (g : GenResult)
    (h : tryBody m u = .ok g) : g.text ≠ "" := by
  unfold tryBody at h
  split at h
  · exact absurd h (by simp)
  · split at h
    · exact absurd h (by simp)
    · split at h
      · exact absurd h (by simp)
      · rename_i hc
        rw [Except.ok.injEq] at h
        subst h
        exact hc

theorem gen_ok_text (p c pref : String) (u : UpstreamOutcome) (g : GenResult)
    (h : (generateAIResponse p c pref u).2 = .ok g) : g.text ≠ "" := by
  unfold generateAIResponse at h
  split at h
  · simp at h
  · rcases ht : tryBody (selectModel pref) u with e | g2
    · rw [ht] at h
      simp at h
    · rw [ht] at h
      simp only at h
      rw [Except.ok.injEq] at h
      subst h
      exact tryBody_ok_text _ _ _ ht

theorem assignment_missing (req : AssignmentReq) (u : UpstreamOutcome)
    (hf : req.prompt.getD "" = "") :
    assignmentHandler req u = ([], .badRequest "Prompt is required") := by
  unfold assignmentHandler
  rw [if_pos hf]

theorem assignment_error (req : AssignmentReq) (u : UpstreamOutcome) (e : String)
    (hf : ¬ req.prompt.getD "" = "") (h : (assignmentCall req u).2 = .error e) :
    assignmentHandler req u = ((assignmentCall req u).1, .serverError e) := by
  unfold assignmentHandler
  rw [if_neg hf, h]

theorem assignment_ok (req : AssignmentReq) (u : UpstreamOutcome) (p : AssignmentPayload)
    (h : (assignmentHandler req u).2 = .ok p) :
    ∃ g, (assignmentCall req u).2 = .ok g ∧ p.text = g.text := by
  unfold assignmentHandler at h
  by_cases hf : req.prompt.getD "" = ""
  · rw [if_pos hf] at h
    simp at h
  · rw [if_neg hf] at h
    rcases hc : (assignmentCall req u).2 with e | g
    · rw [hc] at h
      simp at h
    · rw [hc] at h
      simp only at h
      by_cases hd : req.download = some "pdf"
      · rw [if_pos hd] at h
        simp [pdfResponse] at h
      · rw [if_neg hd] at h
        rw [HandlerResponse.ok.injEq] at h
        exact ⟨g, rfl, by rw [← h]⟩

theorem assignment_not_400 (req : AssignmentReq) (u : UpstreamOutcome)
    (hf : ¬ req.prompt.getD "" = "") :
    (assignmentHandler req u).2.status ≠ 400 := by
  unfold assignmentHandler
  rw [if_neg hf]
  rcases hc : (assignmentCall req u).2 with e | g
  · simp [HandlerResponse.status]
  · by_cases hd : req.download = some "pdf"
    · simp [hd, pdfResponse, HandlerResponse.status]
    · simp [hd, HandlerResponse.status]

theorem longAnswer_missing (req : LongAnswerReq) (u : UpstreamOutcome)
    (hf : req.prompt.getD "" = "") :
    longAnswerHandler req u = ([], .badRequest "Prompt is required") := by
  unfold longAnswerHandler
  rw [if_pos hf]

theorem longAnswer_error (req : LongAnswerReq) (u : UpstreamOutcome) (e : String)
    (hf : ¬ req.prompt.getD "" = "") (h : (longAnswerCall req u).2 = .error e) :
    longAnswerHandler req u = ((longAnswerCall req u).1, .serverError e) := by
  unfold longAnswerHandler
  rw [if_neg hf, h]

theorem longAnswer_ok (req : LongAnswerReq) (u : UpstreamOutcome) (p : LongAnswerPayload)
    (h : (longAnswerHandler req u).2 = .ok p) :
    ∃ g, (longAnswerCall req u).2 = .ok g ∧ p.text = g.text := by
  unfold longAnswerHandler at h
  by_cases hf : req.prompt.getD "" = ""
  · rw [if_pos hf] at h
    simp at h
  · rw [if_neg hf] at h
    rcases hc : (longAnswerCall req u).2 with e | g
    · rw [hc] at h
      simp at h
    · rw [hc] at h
      simp only at h
      by_cases hd : req.download = some "pdf"
      · rw [if_pos hd] at h
        simp [pdfResponse] at h
      · rw [if_neg hd] at h
        rw [HandlerResponse.ok.injEq] at h
        exact ⟨g, rfl, by rw [← h]⟩

theorem longAnswer_not_400 (req : LongAnswerReq) (u : UpstreamOutcome)
    (hf : ¬ req.prompt.getD "" = "") :
    (longAnswerHandler req u).2.status ≠ 400 := by
  unfold longAnswerHandler
  rw [if_neg hf]
  rcases hc : (longAnswerCall req u).2 with e | g
  · simp [HandlerResponse.status]
  · by_cases hd : req.download = some "pdf"
    · simp [hd, pdfResponse, HandlerResponse.status]
    · simp [hd, HandlerResponse.status]

theorem shortAnswer_missing (req : ShortAnswerReq) (u : UpstreamOutcome)
    (hf : req.prompt.getD "" = "") :
    shortAnswerHandler req u = ([], .badRequest "Prompt is required") := by
  unfold shortAnswerHandler
  rw [if_pos hf]

theorem shortAnswer_error (req : ShortAnswerReq) (u : UpstreamOutcome) (e : String)
    (hf : ¬ req.prompt.getD "" = "") (h : (shortAnswerCall req u).2 = .error e) :
    shortAnswerHandler req u = ((shortAnswerCall req u).1, .serverError e) := by
  unfold shortAnswerHandler
  rw [if_neg hf, h]

theorem shortAnswer_ok (req : ShortAnswerReq) (u : UpstreamOutcome) (p : ShortAnswerPayload)
    (h : (shortAnswerHandler req u).2 = .ok p) :
    ∃ g, (shortAnswerCall req u).2 = .ok g ∧ p.text = g.text := by
  unfold shortAnswerHandler at h
  by_cases hf : req.prompt.getD "" = ""
  · rw [if_pos hf] at h
    simp at h
  · rw [if_neg hf] at h
    rcases hc : (shortAnswerCall req u).2 with e | g
    · rw [hc] at h
      simp at h
    · rw [hc] at h
      simp only at h
      rw [HandlerResponse.ok.injEq] at h
      exact ⟨g, rfl, by rw [← h]⟩

theorem shortAnswer_not_400 (req : ShortAnswerReq) (u : UpstreamOutcome)
    (hf : ¬ req.prompt.getD "" = "") :
    (shortAnswerHandler req u).2.status ≠ 400 := by
  unfold shortAnswerHandler
  rw [if_neg hf]
  rcases hc : (shortAnswerCall req u).2 with e | g
  · simp [HandlerResponse.status]
  · simp [HandlerResponse.status]

theorem quiz_missing (req : QuizReq) (u : UpstreamOutcome)
    (hf : req.prompt.getD "" = "") :
    quizHandler req u = ([], .badRequest "Topic is required") := by
  unfold quizHandler
  rw [if_pos hf]

theorem quiz_error (req : QuizReq) (u : UpstreamOutcome) (e : String)
    (hf : ¬ req.prompt.getD "" = "") (h : (quizCall req u).2 = .error e) :
    quizHandler req u = ((quizCall req u).1, .serverError e) := by
  unfold quizHandler
  rw [if_neg hf, h]

theorem quiz_ok (req : QuizReq) (u : UpstreamOutcome) (p : QuizPayload)
    (h : (quizHandler req u).2 = .ok p) :
    ∃ g, (quizCall req u).2 = .ok g ∧ p.text = g.text := by
  unfold quizHandler at h
  by_cases hf : req.prompt.getD "" = ""
  · rw [if_pos hf] at h
    simp at h
  · rw [if_neg hf] at h
    rcases hc : (quizCall req u).2 with e | g
    · rw [hc] at h
      simp at h
    · rw [hc] at h
      simp only at h
      by_cases hd : req.download = some "pdf"
      · rw [if_pos hd] at h
        simp [pdfResponse] at h
      · rw [if_neg hd] at h
        rw [HandlerResponse.ok.injEq] at h
        exact ⟨g, rfl, by rw [← h]⟩

theorem quiz_not_400 (req : QuizReq) (u : UpstreamOutcome)
    (hf : ¬ req.prompt.getD "" = "") :
    (quizHandler req u).2.status ≠ 400 := by
  unfold quizHandler
  rw [if_neg hf]
  rcases hc : (quizCall req u).2 with e | g
  · simp [HandlerResponse.status]
  · by_cases hd : req.download = some "pdf"
    · simp [hd, pdfResponse, HandlerResponse.status]
    · simp [hd, HandlerResponse.status]

theorem grammar_missing (req : GrammarReq) (u : UpstreamOutcome)
    (hf : req.text.getD "" = "") :
    grammarHandler req u = ([], .badRequest "Text is required") := by
  unfold grammarHandler
  rw [if_pos hf]

theorem grammar_error (req : GrammarReq) (u : UpstreamOutcome) (e : String)
    (hf : ¬ req.text.getD "" = "") (h : (grammarCall req u).2 = .error e) :
    grammarHandler req u = ((grammarCall req u).1, .serverError e) := by
  unfold grammarHandler
  rw [if_neg hf, h]

theorem grammar_ok (req : GrammarReq) (u : UpstreamOutcome) (p : GrammarPayload)
    (h : (grammarHandler req u).2 = .ok p) :
    ∃ g, (grammarCall req u).2 = .ok g ∧ p.text = g.text := by
  unfold grammarHandler at h
  by_cases hf : req.text.getD "" = ""
  · rw [if_pos hf] at h
    simp at h
  · rw [if_neg hf] at h
    rcases hc : (grammarCall req u).2 with e | g
    · rw [hc] at h
      simp at h
    · rw [hc] at h
      simp only at h
      rw [HandlerResponse.ok.injEq] at h
      exact ⟨g, rfl, by rw [← h]⟩

theorem grammar_not_400 (req : GrammarReq) (u : UpstreamOutcome)
    (hf : ¬ req.text.getD "" = "") :
    (grammarHandler req u).2.status ≠ 400 := by
  unfold grammarHandler
  rw [if_neg hf]
  rcases hc : (grammarCall req u).2 with e | g
  · simp [HandlerResponse.status]
  · simp [HandlerResponse.status]

theorem chat_missing (req : ChatReq) (u : UpstreamOutcome)
    (hf : req.message.getD "" = "") :
    chatHandler req u = ([], .badRequest "Message is required") := by
  unfold chatHandler
  rw [if_pos hf]

theorem chat_error (req : ChatReq) (u : UpstreamOutcome) (e : String)
    (hf : ¬ req.message.getD "" = "") (h : (chatCall req u).2 = .error e) :
    chatHandler req u = ((chatCall req u).1, .serverError e) := by
  unfold chatHandler
  rw [if_neg hf, h]

theorem chat_ok (req : ChatReq) (u : UpstreamOutcome) (p : ChatPayload)
    (h : (chatHandler req u).2 = .ok p) :
    ∃ g, (chatCall req u).2 = .ok g ∧ p.text = g.text := by
  unfold chatHandler at h
  by_cases hf : req.message.getD "" = ""
  · rw [if_pos hf] at h
    simp at h
  · rw [if_neg hf] at h
    rcases hc : (chatCall req u).2 with e | g
    · rw [hc] at h
      simp at h
    · rw [hc] at h
      simp only at h
      rw [HandlerResponse.ok.injEq] at h
      exact ⟨g, rfl, by rw [← h]⟩

theorem chat_not_400 (req : ChatReq) (u : UpstreamOutcome)
    (hf : ¬ req.message.getD "" = "") :
    (chatHandler req u).2.status ≠ 400 := by
  unfold chatHandler
  rw [if_neg hf]
  rcases hc : (chatCall req u).2 with e | g
  · simp [HandlerResponse.status]
  · simp [HandlerResponse.status]

/-- Full characterization of a successful `/chat` payload, used to read
off the tutoring fields. -/
theorem chat_ok_payload (req : ChatReq) (u : UpstreamOutcome) (g : GenResult)
    (hf : ¬ req.message.getD "" = "") (h : (chatCall req u).2 = .ok g) :
    chatHandler req u = ((chatCall req u).1,
      .ok ⟨g.text, g.source, g.modelUsed, g.tokens, "tutor-response",
        req.studentLevel.getD "high-school", (req.history.getD []).length + 1⟩) := by
  unfold chatHandler
  rw [if_neg hf, h]

end ServerJs

namespace Part000

theorem p0_gen_unknown (prompt : Option String) (c pref : String) (u : UpstreamOutcome)
    (h : taskConfig pref = none) :
    generateAIResponse prompt c pref u = ([], .error ("❌ Unknown task type: " ++ pref)) := by
  unfold generateAIResponse
  rw [h]

theorem p0_gen_calls (prompt : Option String) (c pref : String) (u : UpstreamOutcome)
    (cfg : TaskCfg) (h : taskConfig pref = some cfg) :
    (generateAIResponse prompt c pref u).1 = [⟨cfg.model, c, prompt, 7, 3000⟩] := by
  unfold generateAIResponse
  rw [h]

theorem p0_gen_failure (prompt : Option String) (c pref : String) (st : Option Nat)
    (msg : String) (cfg : TaskCfg) (h : taskConfig pref = some cfg) :
    (generateAIResponse prompt c pref (.failure st msg)).2 =
      .error ("AI se response lene mein error: " ++ cfg.keyName) := by
  unfold generateAIResponse tryBody
  rw [h]

theorem p0_gen_empty_content (prompt : Option String) (c pref : String)
    (content : Option String) (tk : Option Nat) (cfg : TaskCfg)
    (h : taskConfig pref = some cfg) (he : jsTrim (content.getD "") = "") :
    (generateAIResponse prompt c pref (.success content tk)).2 =
      .error ("AI se response lene mein error: " ++ cfg.keyName) := by
  unfold generateAIResponse tryBody
  simp only [h]
  rcases content with _ | s
  · rfl
  · simp only [Option.getD_some] at he
    simp [he]

theorem p0_gen_trim_ok (prompt : Option String) (c pref ctext : String) (tk : Option Nat)
    (cfg : TaskCfg) (h : taskConfig pref = some cfg) (ht : jsTrim ctext ≠ "") :
    (generateAIResponse prompt c pref (.success (some ctext) tk)).2 =
      .ok ⟨jsTrim ctext, cfg.model⟩ := by
  unfold generateAIResponse tryBody
  simp only [h]
  simp [ht]

theorem p0_tryBody_ok_text (cfg : TaskCfg) (u : UpstreamOutcome) (g : GenResult)
    (h : tryBody cfg u = .ok g) : g.text ≠ "" := by
  unfold tryBody at h
  split at h
  · exact absurd h (by simp)
  · split at h
    · exact absurd h (by simp)
    · split at h
      · exact absurd h (by simp)
      · rename_i hc
        rw [Except.ok.injEq] at h
        subst h
        exact hc

theorem p0_gen_ok_text (prompt : Option String) (c pref : String) (u : UpstreamOutcome)
    (g : GenResult) (h : (generateAIResponse prompt c pref u).2 = .ok g) : g.text ≠ "" := by
  unfold generateAIResponse at h
  split at h
  · simp at h
  · simp only at h
    split at h
    · rename_i g2 heq2
      rw [Except.ok.injEq] at h
      subst h
      exact p0_tryBody_ok_text _ _ _ heq2
    · simp at h

theorem p0_assignment_calls (req : Req) (u : UpstreamOutcome) :
    (assignmentHandler req u).1 =
      [⟨"google/gemini-2.0-flash-exp:free", assignmentContext req.prompt, req.prompt, 7, 3000⟩] :=
  p0_gen_calls req.prompt (assignmentContext req.prompt) "assignment" u
    ⟨"google/gemini-2.0-flash-exp:free", "ASSIGNMENT"⟩ (by decide)

theorem p0_assignment_error (req : Req) (u : UpstreamOutcome) (e : String)
    (h : (assignmentCall req u).2 = .error e) :
    assignmentHandler req u = ((assignmentCall req u).1, .serverError e) := by
  unfold assignmentHandler
  rw [h]

theorem p0_assignment_ok_text (req : Req) (u : UpstreamOutcome) (p : GenResult)
    (h : (assignmentHandler req u).2 = .ok p) : p.text ≠ "" := by
  unfold assignmentHandler at h
  rcases hc : (assignmentCall req u).2 with e | g
  · rw [hc] at h
    simp at h
  · rw [hc] at h
    simp only at h
    by_cases hd : req.download = some "pdf"
    · rw [if_pos hd] at h
      simp [pdfResponse] at h
    · rw [if_neg hd] at h
      rw [HandlerResponse.ok.injEq] at h
      rw [← h]
      exact p0_gen_ok_text _ _ _ _ _ hc

theorem p0_assignment_not_400 (req : Req) (u : UpstreamOutcome) :
    (assignmentHandler req u).2.status ≠ 400 := by
  unfold assignmentHandler
  rcases hc : (assignmentCall req u).2 with e | g
  · simp [HandlerResponse.status]
  · by_cases hd : req.download = some "pdf"
    · simp [hd, pdfResponse, HandlerResponse.status]
    · simp [hd, HandlerResponse.status]

theorem p0_longAnswer_calls (req : Req) (u : UpstreamOutcome) :
    (longAnswerHandler req u).1 =
      [⟨"qwen/qwen3-coder:free", longAnswerContext req.prompt, req.prompt, 7, 3000⟩] :=
  p0_gen_calls req.prompt (longAnswerContext req.prompt) "long" u
    ⟨"qwen/qwen3-coder:free", "LONG_ANSWER"⟩ (by decide)

theorem p0_longAnswer_error (req : Req) (u : UpstreamOutcome) (e : String)
    (h : (longAnswerCall req u).2 = .error e) :
    longAnswerHandler req u = ((longAnswerCall req u).1, .serverError e) := by
  unfold longAnswerHandler
  rw [h]

theorem p0_longAnswer_ok_text (req : Req) (u : UpstreamOutcome) (p : GenResult)
    (h : (longAnswerHandler req u).2 = .ok p) : p.text ≠ "" := by
  unfold longAnswerHandler at h
  rcases hc : (longAnswerCall req u).2 with e | g
  · rw [hc] at h
    simp at h
  · rw [hc] at h
    simp only at h
    by_cases hd : req.download = some "pdf"
    · rw [if_pos hd] at h
      simp [pdfResponse] at h
    · rw [if_neg hd] at h
      rw [HandlerResponse.ok.injEq] at h
      rw [← h]
      exact p0_gen_ok_text _ _ _ _ _ hc

theorem p0_longAnswer_not_400 (req : Req) (u : UpstreamOutcome) :
    (longAnswerHandler req u).2.status ≠ 400 := by
  unfold longAnswerHandler
  rcases hc : (longAnswerCall req u).2 with e | g
  · simp [HandlerResponse.status]
  · by_cases hd : req.download = some "pdf"
    · simp [hd, pdfResponse, HandlerResponse.status]
    · simp [hd, HandlerResponse.status]

theorem p0_shortAnswer_calls (req : Req) (u : UpstreamOutcome) :
    (shortAnswerHandler req u).1 =
      [⟨"google/gemma-3n-e2b-it:free", shortAnswerContext req.prompt, req.prompt, 7, 3000⟩] :=
  p0_gen_calls req.prompt (shortAnswerContext req.prompt) "short" u
    ⟨"google/gemma-3n-e2b-it:free", "SHORT_ANSWER"⟩ (by decide)

theorem p0_shortAnswer_error (req : Req) (u : UpstreamOutcome) (e : String)
    (h : (shortAnswerCall req u).2 = .error e) :
    shortAnswerHandler req u = ((shortAnswerCall req u).1, .serverError e) := by
  unfold shortAnswerHandler
  rw [h]

theorem p0_shortAnswer_ok_text (req : Req) (u : UpstreamOutcome) (p : GenResult)
    (h : (shortAnswerHandler req u).2 = .ok p) : p.text ≠ "" := by
  unfold shortAnswerHandler at h
  rcases hc : (shortAnswerCall req u).2 with e | g
  · rw [hc] at h
    simp at h
  · rw [hc] at h
    simp only at h
    rw [HandlerResponse.ok.injEq] at h
    rw [← h]
    exact p0_gen_ok_text _ _ _ _ _ hc

theorem p0_shortAnswer_not_400 (req : Req) (u : UpstreamOutcome) :
    (shortAnswerHandler req u).2.status ≠ 400 := by
  unfold shortAnswerHandler
  rcases hc : (shortAnswerCall req u).2 with e | g
  · simp [HandlerResponse.status]
  · simp [HandlerResponse.status]

theorem p0_quiz_calls (req : Req) (u : UpstreamOutcome) :
    (quizHandler req u).1 =
      [⟨"z-ai/glm-4.5-air:free", quizContext req.prompt, req.prompt, 7, 3000⟩] :=
  p0_gen_calls req.prompt (quizContext req.prompt) "quiz" u
    ⟨"z-ai/glm-4.5-air:free", "ALL_IN_ONE"⟩ (by decide)

theorem p0_quiz_error (req : Req) (u : UpstreamOutcome) (e : String)
    (h : (quizCall req u).2 = .error e) :
    quizHandler req u = ((quizCall req u).1, .serverError e) := by
  unfold quizHandler
  rw [h]

theorem p0_quiz_ok_text (req : Req) (u : UpstreamOutcome) (p : GenResult)
    (h : (quizHandler req u).2 = .ok p) : p.text ≠ "" := by
  unfold quizHandler at h
  rcases hc : (quizCall req u).2 with e | g
  · rw [hc] at h
    simp at h
  · rw [hc] at h
    simp only at h
    rw [HandlerResponse.ok.injEq] at h
    rw [← h]
    exact p0_gen_ok_text _ _ _ _ _ hc

theorem p0_quiz_not_400 (req : Req) (u : UpstreamOutcome) :
    (quizHandler req u).2.status ≠ 400 := by
  unfold quizHandler
  rcases hc : (quizCall req u).2 with e | g
  · simp [HandlerResponse.status]
  · simp [HandlerResponse.status]

theorem p0_grammar_calls (req : Req) (u : UpstreamOutcome) :
    (grammarHandler req u).1 =
      [⟨"z-ai/glm-4.5-air:free", "Correct the grammar of the given sentence.", req.text, 7, 3000⟩] :=
  p0_gen_calls req.text "Correct the grammar of the given sentence." "grammar" u
    ⟨"z-ai/glm-4.5-air:free", "ALL_IN_ONE"⟩ (by decide)

theorem p0_grammar_error (req : Req) (u : UpstreamOutcome) (e : String)
    (h : (grammarCall req u).2 = .error e) :
    grammarHandler req u = ((grammarCall req u).1, .serverError e) := by
  unfold grammarHandler
  rw [h]

theorem p0_grammar_ok_text (req : Req) (u : UpstreamOutcome) (p : GenResult)
    (h : (grammarHandler req u).2 = .ok p) : p.text ≠ "" := by
  unfold grammarHandler at h
  rcases hc : (grammarCall req u).2 with e | g
  · rw [hc] at h
    simp at h
  · rw [hc] at h
    simp only at h
    rw [HandlerResponse.ok.injEq] at h
    rw [← h]
    exact p0_gen_ok_text _ _ _ _ _ hc

theorem p0_grammar_not_400 (req : Req) (u : UpstreamOutcome) :
    (grammarHandler req u).2.status ≠ 400 := by
  unfold grammarHandler
  rcases hc : (grammarCall req u).2 with e | g
  · simp [HandlerResponse.status]
  · simp [HandlerResponse.status]

theorem p0_chat_calls (req : Req) (u : UpstreamOutcome) :
    (chatHandler req u).1 =
      [⟨"z-ai/glm-4.5-air:free", "You\x27re a friendly AI chatbot.", req.message, 7, 3000⟩] :=
  p0_gen_calls req.message "You\x27re a friendly AI chatbot." "chat" u
    ⟨"z-ai/glm-4.5-air:free", "ALL_IN_ONE"⟩ (by decide)

theorem p0_chat_error (req : Req) (u : UpstreamOutcome) (e : String)
    (h : (chatCall req u).2 = .error e) :
    chatHandler req u = ((chatCall req u).1, .serverError e) := by
  unfold chatHandler
  rw [h]

theorem p0_chat_ok_text (req : Req) (u : UpstreamOutcome) (p : GenResult)
    (h : (chatHandler req u).2 = .ok p) : p.text ≠ "" := by
  unfold chatHandler at h
  rcases hc : (chatCall req u).2 with e | g
  · rw [hc] at h
    simp at h
  · rw [hc] at h
    simp only at h
    rw [HandlerResponse.ok.injEq] at h
    rw [← h]
    exact p0_gen_ok_text _ _ _ _ _ hc

theorem p0_chat_not_400 (req : Req) (u : UpstreamOutcome) :
    (chatHandler req u).2.status ≠ 400 := by
  unfold chatHandler
  rcases hc : (chatCall req u).2 with e | g
  · simp [HandlerResponse.status]
  · simp [HandlerResponse.status]

end Part000


theorem head?_dropWhile_not (p : Char → Bool) (l : List Char) (a : Char)
    (h : (l.dropWhile p).head? = some a) : p a = false := by
  induction l with
  | nil => simp [List.dropWhile] at h
  | cons x xs ih =>
    rw [List.dropWhile_cons] at h
    split at h
    · exact ih h
    · rename_i hpx
      simp only [List.head?_cons, Option.some.injEq] at h
      subst h
      simpa using hpx

theorem getLast?_dropWhile (p : Char → Bool) (l : List Char) (a : Char)
    (h : (l.dropWhile p).getLast? = some a) : l.getLast? = some a := by
  induction l with
  | nil => simp [List.dropWhile] at h
  | cons x xs ih =>
    rw [List.dropWhile_cons] at h
    split at h
    · have h2 := ih h
      cases xs with
      | nil => simp at h2
      | cons y ys =>
        rw [List.getLast?_cons_cons]
        exact h2
    · exact h

theorem jsTrimList_head_not_ws (l : List Char) (a : Char)
    (h : (jsTrimList l).head? = some a) : isJsWhitespace a = false := by
  unfold jsTrimList at h
  rw [List.head?_reverse] at h
  have h2 := getLast?_dropWhile _ _ _ h
  rw [List.getLast?_reverse] at h2
  exact head?_dropWhile_not _ _ _ h2

theorem jsTrimList_getLast_not_ws (l : List Char) (a : Char)
    (h : (jsTrimList l).getLast? = some a) : isJsWhitespace a = false := by
  unfold jsTrimList at h
  rw [List.getLast?_reverse] at h
  exact head?_dropWhile_not _ _ _ h

theorem jsTrimList_of_all_ws (l : List Char) (h : ∀ a ∈ l, isJsWhitespace a = true) :
    jsTrimList l = [] := by
  unfold jsTrimList
  have h1 : l.dropWhile isJsWhitespace = [] := List.dropWhile_eq_nil_iff.mpr h
  rw [h1]
  rfl

theorem jsTrim_eq_empty_of_all_ws (s : String) (h : ∀ a ∈ s.data, isJsWhitespace a = true) :
    jsTrim s = "" := by
  unfold jsTrim
  rw [jsTrimList_of_all_ws s.data h]

theorem limiterStep_in_window (st : LimiterState) (now : Nat)
    (h : now < st.windowStart + windowMs) :
    limiterStep st now =
      (⟨st.windowStart, st.count + 1⟩, decide (st.count + 1 ≤ maxRequests)) := by
  unfold limiterStep
  rw [if_neg (by omega)]

theorem processRequests_in_window (ts : List Nat) (st : LimiterState)
    (h : ∀ t ∈ ts, t < st.windowStart + windowMs) :
    (processRequests st ts).1.windowStart = st.windowStart ∧
    (processRequests st ts).1.count = st.count + ts.length ∧
    (processRequests st ts).2 =
      (List.range ts.length).map (fun i => decide (st.count + i + 1 ≤ maxRequests)) := by
  induction ts generalizing st with
  | nil => simp [processRequests]
  | cons t ts ih =>
    have ht : t < st.windowStart + windowMs := h t (List.mem_cons_self t ts)
    have ihr := ih ⟨st.windowStart, st.count + 1⟩
      (fun x hx => h x (List.mem_cons_of_mem _ hx))
    unfold processRequests
    rw [limiterStep_in_window st t ht]
    dsimp only
    refine ⟨ihr.1, ?_, ?_⟩
    · rw [ihr.2.1]
      simp only [List.length_cons]
      omega
    · rw [ihr.2.2]
      simp only [List.length_cons, List.range_succ_eq_map, List.map_cons, List.map_map]
      congr 1
      apply List.map_congr_left
      intro i hi
      simp only [Function.comp_apply]
      rw [decide_eq_decide]
      omega

theorem limitedAssignment_rejected (st : LimiterState) (now : Nat)
    (req : ServerJs.AssignmentReq) (u : UpstreamOutcome)
    (h : (limiterStep st now).2 = false) :
    limitedAssignment st now req u =
      ((limiterStep st now).1, ([], .rateLimited rateLimitMessage)) := by
  unfold limitedAssignment
  rw [h]
  simp

theorem jsSliceLast3_length {α : Type} (l : List α) :
    (ServerJs.jsSliceLast3 l).length ≤ 3 := by
  unfold ServerJs.jsSliceLast3
  rw [List.length_drop]
  omega

theorem jsSliceLast3_of_short {α : Type} (l : List α) (h : l.length ≤ 3) :
    ServerJs.jsSliceLast3 l = l := by
  unfold ServerJs.jsSliceLast3
  have h0 : l.length - 3 = 0 := by omega
  rw [h0, List.drop_zero]

/-- C1 counterexample: in the part_000 variant a `POST /generate-assignment`
request whose body lacks `prompt` is not answered with 400 — the upstream
completion API is called (with the undefined prompt interpolated into the
context) and a failing call surfaces as a 500 response. -/
theorem c1_part000_missing_prompt_calls_upstream :
    Part000.assignmentHandler ⟨none, none, none, none⟩ (.failure none "connect ECONNREFUSED") =
      ([⟨"google/gemini-2.0-flash-exp:free", "Create an assignment on \"undefined\".",
          none, 7, 3000⟩],
        .serverError "AI se response lene mein error: ASSIGNMENT") ∧
    (Part000.assignmentHandler ⟨none, none, none, none⟩
        (.failure none "connect ECONNREFUSED")).2.status = 500 := by
  decide

/-- C1 (amended): in the server.js variant every generation endpoint
answers a request missing its required text field with status 400 and no
upstream call; the part_000 variant performs no such validation on any
endpoint — the upstream call is always issued and no part_000 generation
response ever has status 400. -/
theorem c1_missing_field_validation :
    (∀ (req : ServerJs.AssignmentReq) (u : UpstreamOutcome), req.prompt.getD "" = "" →
      ServerJs.assignmentHandler req u = ([], .badRequest "Prompt is required")) ∧
    (∀ (req : ServerJs.LongAnswerReq) (u : UpstreamOutcome), req.prompt.getD "" = "" →
      ServerJs.longAnswerHandler req u = ([], .badRequest "Prompt is required")) ∧
    (∀ (req : ServerJs.ShortAnswerReq) (u : UpstreamOutcome), req.prompt.getD "" = "" →
      ServerJs.shortAnswerHandler req u = ([], .badRequest "Prompt is required")) ∧
    (∀ (req : ServerJs.QuizReq) (u : UpstreamOutcome), req.prompt.getD "" = "" →
      ServerJs.quizHandler req u = ([], .badRequest "Topic is required")) ∧
    (∀ (req : ServerJs.GrammarReq) (u : UpstreamOutcome), req.text.getD "" = "" →
      ServerJs.grammarHandler req u = ([], .badRequest "Text is required")) ∧
    (∀ (req : ServerJs.ChatReq) (u : UpstreamOutcome), req.message.getD "" = "" →
      ServerJs.chatHandler req u = ([], .badRequest "Message is required")) ∧
    (∀ (req : Part000.Req) (u : UpstreamOutcome),
      (Part000.assignmentHandler req u).1 ≠ [] ∧
      (Part000.longAnswerHandler req u).1 ≠ [] ∧
      (Part000.shortAnswerHandler req u).1 ≠ [] ∧
      (Part000.quizHandler req u).1 ≠ [] ∧
      (Part000.grammarHandler req u).1 ≠ [] ∧
      (Part000.chatHandler req u).1 ≠ [] ∧
      (Part000.assignmentHandler req u).2.status ≠ 400 ∧
      (Part000.longAnswerHandler req u).2.status ≠ 400 ∧
      (Part000.shortAnswerHandler req u).2.status ≠ 400 ∧
      (Part000.quizHandler req u).2.status ≠ 400 ∧
      (Part000.grammarHandler req u).2.status ≠ 400 ∧
      (Part000.chatHandler req u).2.status ≠ 400) := by
  refine ⟨ServerJs.assignment_missing, ServerJs.longAnswer_missing,
    ServerJs.shortAnswer_missing, ServerJs.quiz_missing, ServerJs.grammar_missing,
    ServerJs.chat_missing, ?_⟩
  intro req u
  refine ⟨?_, ?_, ?_, ?_, ?_, ?_,
    Part000.p0_assignment_not_400 req u, Part000.p0_longAnswer_not_400 req u,
    Part000.p0_shortAnswer_not_400 req u, Part000.p0_quiz_not_400 req u,
    Part000.p0_grammar_not_400 req u, Part000.p0_chat_not_400 req u⟩
  · rw [Part000.p0_assignment_calls]
    simp
  · rw [Part000.p0_longAnswer_calls]
    simp
  · rw [Part000.p0_shortAnswer_calls]
    simp
  · rw [Part000.p0_quiz_calls]
    simp
  · rw [Part000.p0_grammar_calls]
    simp
  · rw [Part000.p0_chat_calls]
    simp

/-- C1 witness: the server.js branch at a concrete missing-prompt request
and the part_000 branch at a concrete request. -/
theorem c1_missing_field_validation_witness :
    ((⟨none, none, none, none⟩ : ServerJs.AssignmentReq).prompt.getD "" = "" ∧
      ServerJs.assignmentHandler ⟨none, none, none, none⟩ (.success (some "hi") none) =
        ([], .badRequest "Prompt is required")) ∧
    (Part000.chatHandler ⟨none, none, none, none⟩ (.success (some "hi") none)).1 ≠ [] :=
  ⟨⟨by decide,
    c1_missing_field_validation.1 ⟨none, none, none, none⟩ (.success (some "hi") none)
      (by decide)⟩,
    (c1_missing_field_validation.2.2.2.2.2.2 ⟨none, none, none, none⟩
      (.success (some "hi") none)).2.2.2.2.2.1⟩

/-- C2: when the upstream completion resolves with missing or empty
message content, the generator of either variant fails (the internal
empty-response throw is rewrapped by the surrounding catch), every
generation endpoint then responds 500, and no 200 JSON response of any
generation endpoint ever carries an empty `text` field. -/
theorem c2_empty_upstream_never_200 :
    (∀ (p c pref : String) (content : Option String) (tk : Option Nat),
      p ≠ "" → c ≠ "" → content.getD "" = "" →
      (ServerJs.generateAIResponse p c pref (.success content tk)).2 =
        .error "AI service is currently unavailable. Please try again later.") ∧
    (∀ (prompt : Option String) (c pref : String) (cfg : Part000.TaskCfg)
      (content : Option String) (tk : Option Nat),
      Part000.taskConfig pref = some cfg → content.getD "" = "" →
      (Part000.generateAIResponse prompt c pref (.success content tk)).2 =
        .error ("AI se response lene mein error: " ++ cfg.keyName)) ∧
    (∀ (req : ServerJs.AssignmentReq) (content : Option String) (tk : Option Nat),
      ¬ req.prompt.getD "" = "" → content.getD "" = "" →
      (ServerJs.assignmentHandler req (.success content tk)).2.status = 500) ∧
    (∀ (req : ServerJs.LongAnswerReq) (content : Option String) (tk : Option Nat),
      ¬ req.prompt.getD "" = "" → content.getD "" = "" →
      (ServerJs.longAnswerHandler req (.success content tk)).2.status = 500) ∧
    (∀ (req : ServerJs.ShortAnswerReq) (content : Option String) (tk : Option Nat),
      ¬ req.prompt.getD "" = "" → content.getD "" = "" →
      (ServerJs.shortAnswerHandler req (.success content tk)).2.status = 500) ∧
    (∀ (req : ServerJs.QuizReq) (content : Option String) (tk : Option Nat),
      ¬ req.prompt.getD "" = "" → content.getD "" = "" →
      (ServerJs.quizHandler req (.success content tk)).2.status = 500) ∧
    (∀ (req : ServerJs.GrammarReq) (content : Option String) (tk : Option Nat),
      ¬ req.text.getD "" = "" → content.getD "" = "" →
      (ServerJs.grammarHandler req (.success content tk)).2.status = 500) ∧
    (∀ (req : ServerJs.ChatReq) (content : Option String) (tk : Option Nat),
      ¬ req.message.getD "" = "" → content.getD "" = "" →
      (ServerJs.chatHandler req (.success content tk)).2.status = 500) ∧
    (∀ (req : Part000.Req) (content : Option String) (tk : Option Nat),
      content.getD "" = "" →
      (Part000.assignmentHandler req (.success content tk)).2.status = 500 ∧
      (Part000.longAnswerHandler req (.success content tk)).2.status = 500 ∧
      (Part000.shortAnswerHandler req (.success content tk)).2.status = 500 ∧
      (Part000.quizHandler req (.success content tk)).2.status = 500 ∧
      (Part000.grammarHandler req (.success content tk)).2.status = 500 ∧
      (Part000.chatHandler req (.success content tk)).2.status = 500) ∧
    (∀ (req : ServerJs.AssignmentReq) (u : UpstreamOutcome) (p : ServerJs.AssignmentPayload),
      (ServerJs.assignmentHandler req u).2 = .ok p → p.text ≠ "") ∧
    (∀ (req : ServerJs.LongAnswerReq) (u : UpstreamOutcome) (p : ServerJs.LongAnswerPayload),
      (ServerJs.longAnswerHandler req u).2 = .ok p → p.text ≠ "") ∧
    (∀ (req : ServerJs.ShortAnswerReq) (u : UpstreamOutcome) (p : ServerJs.ShortAnswerPayload),
      (ServerJs.shortAnswerHandler req u).2 = .ok p → p.text ≠ "") ∧
    (∀ (req : ServerJs.QuizReq) (u : UpstreamOutcome) (p : ServerJs.QuizPayload),
      (ServerJs.quizHandler req u).2 = .ok p → p.text ≠ "") ∧
    (∀ (req : ServerJs.GrammarReq) (u : UpstreamOutcome) (p : ServerJs.GrammarPayload),
      (ServerJs.grammarHandler req u).2 = .ok p → p.text ≠ "") ∧
    (∀ (req : ServerJs.ChatReq) (u : UpstreamOutcome) (p : ServerJs.ChatPayload),
      (ServerJs.chatHandler req u).2 = .ok p → p.text ≠ "") ∧
    (∀ (req : Part000.Req) (u : UpstreamOutcome) (p : Part000.GenResult),
      ((Part000.assignmentHandler req u).2 = .ok p → p.text ≠ "") ∧
      ((Part000.longAnswerHandler req u).2 = .ok p → p.text ≠ "") ∧
      ((Part000.shortAnswerHandler req u).2 = .ok p → p.text ≠ "") ∧
      ((Part000.quizHandler req u).2 = .ok p → p.text ≠ "") ∧
      ((Part000.grammarHandler req u).2 = .ok p → p.text ≠ "") ∧
      ((Part000.chatHandler req u).2 = .ok p → p.text ≠ "")) := by
  have hP : ∀ (c2 : Option String), c2.getD "" = "" → jsTrim (c2.getD "") = "" := by
    intro c2 h
    rw [h]
    decide
  refine ⟨?_, ?_, ?_, ?_, ?_, ?_, ?_, ?_, ?_, ?_, ?_, ?_, ?_, ?_, ?_, ?_⟩
  · intro p c pref content tk hp hc he
    exact ServerJs.gen_empty_content p c pref content tk hp hc he
  · intro prompt c pref cfg content tk hcfg he
    exact Part000.p0_gen_empty_content prompt c pref content tk cfg hcfg (hP content he)
  · intro req content tk hf he
    have hcall : (ServerJs.assignmentCall req (.success content tk)).2 =
        .error "AI service is currently unavailable. Please try again later." :=
      ServerJs.gen_empty_content _ _ _ content tk hf
        (ServerJs.assignmentContext_ne_empty _ _ _) he
    rw [ServerJs.assignment_error _ _ _ hf hcall]
    rfl
  · intro req content tk hf he
    have hcall : (ServerJs.longAnswerCall req (.success content tk)).2 =
        .error "AI service is currently unavailable. Please try again later." :=
      ServerJs.gen_empty_content _ _ _ content tk hf
        (ServerJs.longAnswerContext_ne_empty _ _) he
    rw [ServerJs.longAnswer_error _ _ _ hf hcall]
    rfl
  · intro req content tk hf he
    have hcall : (ServerJs.shortAnswerCall req (.success content tk)).2 =
        .error "AI service is currently unavailable. Please try again later." :=
      ServerJs.gen_empty_content _ _ _ content tk hf
        (ServerJs.shortAnswerContext_ne_empty _) he
    rw [ServerJs.shortAnswer_error _ _ _ hf hcall]
    rfl
  · intro req content tk hf he
    have hcall : (ServerJs.quizCall req (.success content tk)).2 =
        .error "AI service is currently unavailable. Please try again later." :=
      ServerJs.gen_empty_content _ _ _ content tk hf
        (ServerJs.quizContext_ne_empty _ _ _ _) he
    rw [ServerJs.quiz_error _ _ _ hf hcall]
    rfl
  · intro req content tk hf he
    have hcall : (ServerJs.grammarCall req (.success content tk)).2 =
        .error "AI service is currently unavailable. Please try again later." :=
      ServerJs.gen_empty_content _ _ _ content tk hf
        (ServerJs.grammarContext_ne_empty _) he
    rw [ServerJs.grammar_error _ _ _ hf hcall]
    rfl
  · intro req content tk hf he
    have hcall : (ServerJs.chatCall req (.success content tk)).2 =
        .error "AI service is currently unavailable. Please try again later." :=
      ServerJs.gen_empty_content _ _ _ content tk hf
        (ServerJs.chatContext_ne_empty _ _) he
    rw [ServerJs.chat_error _ _ _ hf hcall]
    rfl
  · intro req content tk he
    refine ⟨?_, ?_, ?_, ?_, ?_, ?_⟩
    · have hcall : (Part000.assignmentCall req (.success content tk)).2 =
          .error ("AI se response lene mein error: " ++ "ASSIGNMENT") :=
        Part000.p0_gen_empty_content _ _ _ content tk
          ⟨"google/gemini-2.0-flash-exp:free", "ASSIGNMENT"⟩ (by decide) (hP content he)
      rw [Part000.p0_assignment_error _ _ _ hcall]
      rfl
    · have hcall : (Part000.longAnswerCall req (.success content tk)).2 =
          .error ("AI se response lene mein error: " ++ "LONG_ANSWER") :=
        Part000.p0_gen_empty_content _ _ _ content tk
          ⟨"qwen/qwen3-coder:free", "LONG_ANSWER"⟩ (by decide) (hP content he)
      rw [Part000.p0_longAnswer_error _ _ _ hcall]
      rfl
    · have hcall : (Part000.shortAnswerCall req (.success content tk)).2 =
          .error ("AI se response lene mein error: " ++ "SHORT_ANSWER") :=
        Part000.p0_gen_empty_content _ _ _ content tk
          ⟨"google/gemma-3n-e2b-it:free", "SHORT_ANSWER"⟩ (by decide) (hP content he)
      rw [Part000.p0_shortAnswer_error _ _ _ hcall]
      rfl
    · have hcall : (Part000.quizCall req (.success content tk)).2 =
          .error ("AI se response lene mein error: " ++ "ALL_IN_ONE") :=
        Part000.p0_gen_empty_content _ _ _ content tk
          ⟨"z-ai/glm-4.5-air:free", "ALL_IN_ONE"⟩ (by decide) (hP content he)
      rw [Part000.p0_quiz_error _ _ _ hcall]
      rfl
    · have hcall : (Part000.grammarCall req (.success content tk)).2 =
          .error ("AI se response lene mein error: " ++ "ALL_IN_ONE") :=
        Part000.p0_gen_empty_content _ _ _ content tk
          ⟨"z-ai/glm-4.5-air:free", "ALL_IN_ONE"⟩ (by decide) (hP content he)
      rw [Part000.p0_grammar_error _ _ _ hcall]
      rfl
    · have hcall : (Part000.chatCall req (.success content tk)).2 =
          .error ("AI se response lene mein error: " ++ "ALL_IN_ONE") :=
        Part000.p0_gen_empty_content _ _ _ content tk
          ⟨"z-ai/glm-4.5-air:free", "ALL_IN_ONE"⟩ (by decide) (hP content he)
      rw [Part000.p0_chat_error _ _ _ hcall]
      rfl
  · intro req u p hok
    obtain ⟨g, hg, hpg⟩ := ServerJs.assignment_ok req u p hok
    rw [hpg]
    exact ServerJs.gen_ok_text _ _ _ _ _ hg
  · intro req u p hok
    obtain ⟨g, hg, hpg⟩ := ServerJs.longAnswer_ok req u p hok
    rw [hpg]
    exact ServerJs.gen_ok_text _ _ _ _ _ hg
  · intro req u p hok
    obtain ⟨g, hg, hpg⟩ := ServerJs.shortAnswer_ok req u p hok
    rw [hpg]
    exact ServerJs.gen_ok_text _ _ _ _ _ hg
  · intro req u p hok
    obtain ⟨g, hg, hpg⟩ := ServerJs.quiz_ok req u p hok
    rw [hpg]
    exact ServerJs.gen_ok_text _ _ _ _ _ hg
  · intro req u p hok
    obtain ⟨g, hg, hpg⟩ := ServerJs.grammar_ok req u p hok
    rw [hpg]
    exact ServerJs.gen_ok_text _ _ _ _ _ hg
  · intro req u p hok
    obtain ⟨g, hg, hpg⟩ := ServerJs.chat_ok req u p hok
    rw [hpg]
    exact ServerJs.gen_ok_text _ _ _ _ _ hg
  · intro req u p
    exact ⟨Part000.p0_assignment_ok_text req u p, Part000.p0_longAnswer_ok_text req u p,
      Part000.p0_shortAnswer_ok_text req u p, Part000.p0_quiz_ok_text req u p,
      Part000.p0_grammar_ok_text req u p, Part000.p0_chat_ok_text req u p⟩

/-- C2 witness: a concrete empty upstream response through the server.js
short-answer endpoint and the part_000 chat endpoint, plus a concrete
successful response showing a non-empty `text`. -/
theorem c2_empty_upstream_never_200_witness :
    (¬ (⟨some "What is photosynthesis?"⟩ : ServerJs.ShortAnswerReq).prompt.getD "" = "" ∧
      ((some "" : Option String).getD "" = "") ∧
      (ServerJs.shortAnswerHandler ⟨some "What is photosynthesis?"⟩
        (.success (some "") none)).2.status = 500) ∧
    ((Part000.chatHandler ⟨none, none, some "hello", none⟩ (.success none none)).2.status = 500) :=
  ⟨⟨by decide, by decide,
    c2_empty_upstream_never_200.2.2.2.2.1 ⟨some "What is photosynthesis?"⟩ (some "") none
      (by decide) (by decide)⟩,
    (c2_empty_upstream_never_200.2.2.2.2.2.2.2.2.1 ⟨none, none, some "hello", none⟩ none none
      (by decide)).2.2.2.2.2⟩

/-- C3 counterexample: in the server.js variant a model preference absent
from `modelMap` does not fail with an unknown-task error — the `auto`
model is substituted (`modelMap[modelPreference] || modelMap.auto`) and
the upstream call proceeds and can succeed. -/
theorem c3_serverjs_unknown_task_uses_auto_model :
    ServerJs.modelMap "bogus" = none ∧
    ServerJs.generateAIResponse "p" "c" "bogus" (.success (some "hi") (some 5)) =
      ([⟨"google/gemini-2.0-flash-exp:free", "c", some "p", 7, 2048⟩],
        .ok ⟨"hi", "openrouter", "google/gemini-2.0-flash-exp:free", 5⟩) := by
  decide

/-- C3 (amended): only the part_000 variant fails with
`Unknown task type` (and issues no upstream call) on a task type absent
from its lookup table; the server.js variant substitutes the `auto`
model and issues the upstream call with it. -/
theorem c3_unknown_task_behavior :
    (∀ (prompt : Option String) (c pref : String) (u : UpstreamOutcome),
      Part000.taskConfig pref = none →
      Part000.generateAIResponse prompt c pref u =
        ([], .error ("❌ Unknown task type: " ++ pref))) ∧
    (∀ (p c pref : String) (u : UpstreamOutcome),
      ServerJs.modelMap pref = none → p ≠ "" → c ≠ "" →
      (ServerJs.generateAIResponse p c pref u).1 =
        [⟨"google/gemini-2.0-flash-exp:free", c, some p, 7, 2048⟩]) := by
  constructor
  · intro prompt c pref u h
    exact Part000.p0_gen_unknown prompt c pref u h
  · intro p c pref u h hp hc
    rw [ServerJs.gen_calls p c pref u hp hc]
    unfold ServerJs.selectModel
    rw [h]
    rfl

/-- C3 witness: a concrete unknown task type through each variant. -/
theorem c3_unknown_task_behavior_witness :
    (Part000.taskConfig "auto" = none ∧
      Part000.generateAIResponse (some "p") "c" "auto" (.success (some "hi") none) =
        ([], .error ("❌ Unknown task type: " ++ "auto"))) ∧
    (ServerJs.modelMap "general" = none ∧
      (ServerJs.generateAIResponse "p" "c" "general" (.success (some "hi") none)).1 =
        [⟨"google/gemini-2.0-flash-exp:free", "c", some "p", 7, 2048⟩]) :=
  ⟨⟨by decide,
    c3_unknown_task_behavior.1 (some "p") "c" "auto" (.success (some "hi") none) (by decide)⟩,
    ⟨by decide,
    c3_unknown_task_behavior.2 "p" "c" "general" (.success (some "hi") none)
      (by decide) (by decide) (by decide)⟩⟩

/-- C4 counterexample: the sampling parameters are not a per-task-type
function with the claimed shape — a short-answer request is sent with
temperature 0.7 (tenths = 7, not ~0.3), and a long-form request receives
exactly the same token budget as a short-answer one in both variants
(2048 in server.js, 3000 in part_000). -/
theorem c4_sampling_params_not_per_task :
    ((ServerJs.generateAIResponse "p" "c" "short" (.success (some "hi") none)).1.map
        (fun r => r.temperatureTenths) = [7]) ∧
    ((ServerJs.generateAIResponse "p" "c" "long" (.success (some "hi") none)).1.map
        (fun r => r.maxTokens) =
      (ServerJs.generateAIResponse "p" "c" "short" (.success (some "hi") none)).1.map
        (fun r => r.maxTokens)) ∧
    ((Part000.generateAIResponse (some "p") "c" "short" (.success (some "hi") none)).1.map
        (fun r => r.temperatureTenths) = [7]) ∧
    ((Part000.generateAIResponse (some "p") "c" "long" (.success (some "hi") none)).1.map
        (fun r => r.maxTokens) =
      (Part000.generateAIResponse (some "p") "c" "short" (.success (some "hi") none)).1.map
        (fun r => r.maxTokens)) := by
  decide

/-- C4 (amended): temperature and max-token budget are fixed constants
independent of the task type — every upstream request carries temperature
0.7 and `max_tokens` 2048 in the server.js variant, 0.7 and 3000 in the
part_000 variant. -/
theorem c4_sampling_params_constant :
    (∀ (p c pref : String) (u : UpstreamOutcome) (r : UpstreamRequest),
      r ∈ (ServerJs.generateAIResponse p c pref u).1 →
      r.temperatureTenths = 7 ∧ r.maxTokens = 2048) ∧
    (∀ (prompt : Option String) (c pref : String) (u : UpstreamOutcome) (r : UpstreamRequest),
      r ∈ (Part000.generateAIResponse prompt c pref u).1 →
      r.temperatureTenths = 7 ∧ r.maxTokens = 3000) := by
  constructor
  · intro p c pref u r hr
    unfold ServerJs.generateAIResponse at hr
    split at hr
    · simp at hr
    · simp at hr
      subst hr
      exact ⟨rfl, rfl⟩
  · intro prompt c pref u r hr
    unfold Part000.generateAIResponse at hr
    split at hr
    · simp at hr
    · simp at hr
      subst hr
      exact ⟨rfl, rfl⟩

/-- C4 witness: the single upstream request of a concrete short-answer
generation carries temperature tenths 7 and the fixed budget. -/
theorem c4_sampling_params_constant_witness :
    ((⟨"qwen/qwen3-coder:free", "c", some "p", 7, 2048⟩ : UpstreamRequest) ∈
      (ServerJs.generateAIResponse "p" "c" "short" (.success (some "hi") none)).1) ∧
    ((⟨"qwen/qwen3-coder:free", "c", some "p", 7, 2048⟩ : UpstreamRequest).temperatureTenths = 7 ∧
      (⟨"qwen/qwen3-coder:free", "c", some "p", 7, 2048⟩ : UpstreamRequest).maxTokens = 2048) :=
  ⟨by decide,
    c4_sampling_params_constant.1 "p" "c" "short" (.success (some "hi") none)
      ⟨"qwen/qwen3-coder:free", "c", some "p", 7, 2048⟩ (by decide)⟩

/-- C5: every failure of the generator surfaces as HTTP 500 on every
generation endpoint of both variants, whatever the failure kind carried
by the error message; a 400 arises only from a missing required field
(and in the part_000 variant, which never validates, no response is 400). -/
theorem c5_failure_status_500 :
    (∀ (req : ServerJs.AssignmentReq) (u : UpstreamOutcome) (e : String),
      ¬ req.prompt.getD "" = "" → (ServerJs.assignmentCall req u).2 = .error e →
      (ServerJs.assignmentHandler req u).2.status = 500) ∧
    (∀ (req : ServerJs.LongAnswerReq) (u : UpstreamOutcome) (e : String),
      ¬ req.prompt.getD "" = "" → (ServerJs.longAnswerCall req u).2 = .error e →
      (ServerJs.longAnswerHandler req u).2.status = 500) ∧
    (∀ (req : ServerJs.ShortAnswerReq) (u : UpstreamOutcome) (e : String),
      ¬ req.prompt.getD "" = "" → (ServerJs.shortAnswerCall req u).2 = .error e →
      (ServerJs.shortAnswerHandler req u).2.status = 500) ∧
    (∀ (req : ServerJs.QuizReq) (u : UpstreamOutcome) (e : String),
      ¬ req.prompt.getD "" = "" → (ServerJs.quizCall req u).2 = .error e →
      (ServerJs.quizHandler req u).2.status = 500) ∧
    (∀ (req : ServerJs.GrammarReq) (u : UpstreamOutcome) (e : String),
      ¬ req.text.getD "" = "" → (ServerJs.grammarCall req u).2 = .error e →
      (ServerJs.grammarHandler req u).2.status = 500) ∧
    (∀ (req : ServerJs.ChatReq) (u : UpstreamOutcome) (e : String),
      ¬ req.message.getD "" = "" → (ServerJs.chatCall req u).2 = .error e →
      (ServerJs.chatHandler req u).2.status = 500) ∧
    (∀ (req : ServerJs.AssignmentReq) (u : UpstreamOutcome),
      (ServerJs.assignmentHandler req u).2.status = 400 → req.prompt.getD "" = "") ∧
    (∀ (req : ServerJs.LongAnswerReq) (u : UpstreamOutcome),
      (ServerJs.longAnswerHandler req u).2.status = 400 → req.prompt.getD "" = "") ∧
    (∀ (req : ServerJs.ShortAnswerReq) (u : UpstreamOutcome),
      (ServerJs.shortAnswerHandler req u).2.status = 400 → req.prompt.getD "" = "") ∧
    (∀ (req : ServerJs.QuizReq) (u : UpstreamOutcome),
      (ServerJs.quizHandler req u).2.status = 400 → req.prompt.getD "" = "") ∧
    (∀ (req : ServerJs.GrammarReq) (u : UpstreamOutcome),
      (ServerJs.grammarHandler req u).2.status = 400 → req.text.getD "" = "") ∧
    (∀ (req : ServerJs.ChatReq) (u : UpstreamOutcome),
      (ServerJs.chatHandler req u).2.status = 400 → req.message.getD "" = "") ∧
    (∀ (req : Part000.Req) (u : UpstreamOutcome) (e : String),
      ((Part000.assignmentCall req u).2 = .error e →
        (Part000.assignmentHandler req u).2.status = 500) ∧
      ((Part000.longAnswerCall req u).2 = .error e →
        (Part000.longAnswerHandler req u).2.status = 500) ∧
      ((Part000.shortAnswerCall req u).2 = .error e →
        (Part000.shortAnswerHandler req u).2.status = 500) ∧
      ((Part000.quizCall req u).2 = .error e →
        (Part000.quizHandler req u).2.status = 500) ∧
      ((Part000.grammarCall req u).2 = .error e →
        (Part000.grammarHandler req u).2.status = 500) ∧
      ((Part000.chatCall req u).2 = .error e →
        (Part000.chatHandler req u).2.status = 500)) ∧
    (∀ (req : Part000.Req) (u : UpstreamOutcome),
      (Part000.assignmentHandler req u).2.status ≠ 400 ∧
      (Part000.longAnswerHandler req u).2.status ≠ 400 ∧
      (Part000.shortAnswerHandler req u).2.status ≠ 400 ∧
      (Part000.quizHandler req u).2.status ≠ 400 ∧
      (Part000.grammarHandler req u).2.status ≠ 400 ∧
      (Part000.chatHandler req u).2.status ≠ 400) := by
  refine ⟨?_, ?_, ?_, ?_, ?_, ?_, ?_, ?_, ?_, ?_, ?_, ?_, ?_, ?_⟩
  · intro req u e hf hcall
    rw [ServerJs.assignment_error _ _ _ hf hcall]
    rfl
  · intro req u e hf hcall
    rw [ServerJs.longAnswer_error _ _ _ hf hcall]
    rfl
  · intro req u e hf hcall
    rw [ServerJs.shortAnswer_error _ _ _ hf hcall]
    rfl
  · intro req u e hf hcall
    rw [ServerJs.quiz_error _ _ _ hf hcall]
    rfl
  · intro req u e hf hcall
    rw [ServerJs.grammar_error _ _ _ hf hcall]
    rfl
  · intro req u e hf hcall
    rw [ServerJs.chat_error _ _ _ hf hcall]
    rfl
  · intro req u h400
    by_cases hf : req.prompt.getD "" = ""
    · exact hf
    · exact absurd h400 (ServerJs.assignment_not_400 req u hf)
  · intro req u h400
    by_cases hf : req.prompt.getD "" = ""
    · exact hf
    · exact absurd h400 (ServerJs.longAnswer_not_400 req u hf)
  · intro req u h400
    by_cases hf : req.prompt.getD "" = ""
    · exact hf
    · exact absurd h400 (ServerJs.shortAnswer_not_400 req u hf)
  · intro req u h400
    by_cases hf : req.prompt.getD "" = ""
    · exact hf
    · exact absurd h400 (ServerJs.quiz_not_400 req u hf)
  · intro req u h400
    by_cases hf : req.text.getD "" = ""
    · exact hf
    · exact absurd h400 (ServerJs.grammar_not_400 req u hf)
  · intro req u h400
    by_cases hf : req.message.getD "" = ""
    · exact hf
    · exact absurd h400 (ServerJs.chat_not_400 req u hf)
  · intro req u e
    refine ⟨?_, ?_, ?_, ?_, ?_, ?_⟩
    · intro hcall
      rw [Part000.p0_assignment_error _ _ _ hcall]
      rfl
    · intro hcall
      rw [Part000.p0_longAnswer_error _ _ _ hcall]
      rfl
    · intro hcall
      rw [Part000.p0_shortAnswer_error _ _ _ hcall]
      rfl
    · intro hcall
      rw [Part000.p0_quiz_error _ _ _ hcall]
      rfl
    · intro hcall
      rw [Part000.p0_grammar_error _ _ _ hcall]
      rfl
    · intro hcall
      rw [Part000.p0_chat_error _ _ _ hcall]
      rfl
  · intro req u
    exact ⟨Part000.p0_assignment_not_400 req u, Part000.p0_longAnswer_not_400 req u,
      Part000.p0_shortAnswer_not_400 req u, Part000.p0_quiz_not_400 req u,
      Part000.p0_grammar_not_400 req u, Part000.p0_chat_not_400 req u⟩

/-- C5 witness: a concrete upstream 401 failure yields 500 on the
server.js assignment endpoint, and a concrete 400 implies the prompt was
missing. -/
theorem c5_failure_status_500_witness :
    (¬ (⟨some "photosynthesis", none, none, none⟩ : ServerJs.AssignmentReq).prompt.getD "" = "" ∧
      (ServerJs.assignmentCall ⟨some "photosynthesis", none, none, none⟩
        (.failure (some 401) "Unauthorized")).2 =
        .error "Authentication failed. Please check your API key configuration." ∧
      (ServerJs.assignmentHandler ⟨some "photosynthesis", none, none, none⟩
        (.failure (some 401) "Unauthorized")).2.status = 500) ∧
    ((ServerJs.chatHandler ⟨none, none, none⟩ (.success (some "hi") none)).2.status = 400 ∧
      (⟨none, none, none⟩ : ServerJs.ChatReq).message.getD "" = "") :=
  ⟨⟨by decide, by decide,
    c5_failure_status_500.1 ⟨some "photosynthesis", none, none, none⟩
      (.failure (some 401) "Unauthorized")
      "Authentication failed. Please check your API key configuration."
      (by decide) (by decide)⟩,
    ⟨by decide,
    c5_failure_status_500.2.2.2.2.2.2.2.2.2.2.2.1 ⟨none, none, none⟩
      (.success (some "hi") none) (by decide)⟩⟩

/-- C6 counterexample: the part_000 variant does not map upstream HTTP
status codes into distinct error kinds — an upstream 401 produces exactly
the same fixed message as an upstream 503, so no unauthorized-specific
error is raised for 401. -/
theorem c6_part000_ignores_upstream_status :
    (Part000.generateAIResponse (some "p") "c" "short"
        (.failure (some 401) "raw upstream payload")).2 =
      .error "AI se response lene mein error: SHORT_ANSWER" ∧
    (Part000.generateAIResponse (some "p") "c" "short"
        (.failure (some 503) "raw upstream payload")).2 =
      .error "AI se response lene mein error: SHORT_ANSWER" := by
  decide

/-- C6 (amended): the server.js generator maps an upstream failure status
into the fixed four-message set (401 auth, 429 rate limit, 404 model not
found, anything else the generic unavailable message); the part_000
generator raises one fixed per-key message regardless of status.  In both
variants the raised error is independent of the raw upstream error
message, which reaches only the log. -/
theorem c6_upstream_error_mapping :
    (∀ (p c pref msg : String), p ≠ "" → c ≠ "" →
      ((ServerJs.generateAIResponse p c pref (.failure (some 401) msg)).2 =
        .error "Authentication failed. Please check your API key configuration.") ∧
      ((ServerJs.generateAIResponse p c pref (.failure (some 429) msg)).2 =
        .error "Rate limit exceeded. Please try again later.") ∧
      ((ServerJs.generateAIResponse p c pref (.failure (some 404) msg)).2 =
        .error ("Model \x27" ++ ServerJs.selectModel pref ++
          "\x27 not found. Please check model name or contact support.")) ∧
      (∀ st : Option Nat, st ≠ some 401 → st ≠ some 429 → st ≠ some 404 →
        (ServerJs.generateAIResponse p c pref (.failure st msg)).2 =
          .error "AI service is currently unavailable. Please try again later.")) ∧
    (∀ (p c pref : String) (st : Option Nat) (msg1 msg2 : String),
      ServerJs.generateAIResponse p c pref (.failure st msg1) =
        ServerJs.generateAIResponse p c pref (.failure st msg2)) ∧
    (∀ (prompt : Option String) (c pref : String) (cfg : Part000.TaskCfg)
        (st : Option Nat) (msg : String), Part000.taskConfig pref = some cfg →
      (Part000.generateAIResponse prompt c pref (.failure st msg)).2 =
        .error ("AI se response lene mein error: " ++ cfg.keyName)) ∧
    (∀ (prompt : Option String) (c pref : String) (st : Option Nat) (msg1 msg2 : String),
      Part000.generateAIResponse prompt c pref (.failure st msg1) =
        Part000.generateAIResponse prompt c pref (.failure st msg2)) := by
  refine ⟨?_, ?_, ?_, ?_⟩
  · intro p c pref msg hp hc
    refine ⟨?_, ?_, ?_, ?_⟩
    · rw [ServerJs.gen_failure p c pref (some 401) msg hp hc]
      rfl
    · rw [ServerJs.gen_failure p c pref (some 429) msg hp hc]
      rfl
    · rw [ServerJs.gen_failure p c pref (some 404) msg hp hc]
      rfl
    · intro st h1 h2 h3
      rw [ServerJs.gen_failure p c pref st msg hp hc]
      unfold ServerJs.catchMessage
      rw [if_neg h1, if_neg h2, if_neg h3]
  · intro p c pref st msg1 msg2
    rfl
  · intro prompt c pref cfg st msg hcfg
    exact Part000.p0_gen_failure prompt c pref st msg cfg hcfg
  · intro prompt c pref st msg1 msg2
    rfl

/-- C6 witness: the concrete status mapping at 401 and at an unlisted
status, and message-independence at a concrete pair of raw payloads. -/
theorem c6_upstream_error_mapping_witness :
    ((ServerJs.generateAIResponse "p" "c" "quiz" (.failure (some 401) "raw")).2 =
      .error "Authentication failed. Please check your API key configuration.") ∧
    ((ServerJs.generateAIResponse "p" "c" "quiz" (.failure (some 503) "raw")).2 =
      .error "AI service is currently unavailable. Please try again later.") ∧
    ServerJs.generateAIResponse "p" "c" "quiz" (.failure (some 500) "raw A") =
      ServerJs.generateAIResponse "p" "c" "quiz" (.failure (some 500) "raw B") ∧
    (Part000.generateAIResponse (some "p") "c" "quiz" (.failure (some 404) "raw")).2 =
      .error ("AI se response lene mein error: " ++ "ALL_IN_ONE") :=
  ⟨(c6_upstream_error_mapping.1 "p" "c" "quiz" "raw" (by decide) (by decide)).1,
    (c6_upstream_error_mapping.1 "p" "c" "quiz" "raw" (by decide) (by decide)).2.2.2
      (some 503) (by decide) (by decide) (by decide),
    c6_upstream_error_mapping.2.1 "p" "c" "quiz" (some 500) "raw A" "raw B",
    c6_upstream_error_mapping.2.2.1 (some "p") "c" "quiz"
      ⟨"z-ai/glm-4.5-air:free", "ALL_IN_ONE"⟩ (some 404) "raw" (by decide)⟩

theorem ServerJs.gen_success (p c pref c2 : String) (tk : Option Nat)
    (hp : p ≠ "") (hc : c ≠ "") (h2 : c2 ≠ "") :
    (ServerJs.generateAIResponse p c pref (.success (some c2) tk)).2 =
      .ok ⟨c2, "openrouter", ServerJs.selectModel pref, tk.getD 0⟩ := by
  unfold ServerJs.generateAIResponse ServerJs.tryBody
  rw [if_neg (by tauto)]
  simp only
  rw [if_neg h2]

/-- C7 counterexample: the PDF filename is not the title with all
non-alphanumeric characters removed — the title is lowercased and every
non-alphanumeric character is replaced by a hyphen.  A concrete
assignment download carries
`attachment; filename="assignment---ab.pdf"`, which differs from the
removal-based header the claim describes. -/
theorem c7_filename_hyphens_not_removed :
    (ServerJs.assignmentHandler ⟨some "Ab", none, none, some "pdf"⟩
        (.success (some "hi") none)).2 =
      .pdf "hi" "application/pdf" "attachment; filename=\"assignment---ab.pdf\"" ∧
    specRemovedDisposition "Assignment - Ab" = "attachment; filename=\"AssignmentAb.pdf\"" ∧
    "attachment; filename=\"assignment---ab.pdf\"" ≠
      "attachment; filename=\"AssignmentAb.pdf\"" := by
  decide

/-- C7 (amended): a successful generation requested with `?download=pdf`
(available on assignment, long-answer and quiz in server.js and on
assignment and long-answer in part_000) responds with
`Content-Type: application/pdf` and a `Content-Disposition` attachment
header whose filename is the endpoint title lowercased with every
non-alphanumeric character replaced by a hyphen, suffixed `.pdf`; every
character of the sanitized stem is alphanumeric or a hyphen. -/
theorem c7_pdf_headers :
    (∀ (req : ServerJs.AssignmentReq) (c2 : String) (tk : Option Nat),
      ¬ req.prompt.getD "" = "" → req.download = some "pdf" → c2 ≠ "" →
      (ServerJs.assignmentHandler req (.success (some c2) tk)).2 =
        .pdf c2 "application/pdf"
          ("attachment; filename=\"" ++
            ServerJs.sanitizeFilename ("Assignment - " ++ req.prompt.getD "") ++ ".pdf\"")) ∧
    (∀ (req : ServerJs.LongAnswerReq) (c2 : String) (tk : Option Nat),
      ¬ req.prompt.getD "" = "" → req.download = some "pdf" → c2 ≠ "" →
      (ServerJs.longAnswerHandler req (.success (some c2) tk)).2 =
        .pdf c2 "application/pdf"
          ("attachment; filename=\"" ++
            ServerJs.sanitizeFilename ("Long Answer - " ++ req.prompt.getD "") ++ ".pdf\"")) ∧
    (∀ (req : ServerJs.QuizReq) (c2 : String) (tk : Option Nat),
      ¬ req.prompt.getD "" = "" → req.download = some "pdf" → c2 ≠ "" →
      (ServerJs.quizHandler req (.success (some c2) tk)).2 =
        .pdf c2 "application/pdf"
          ("attachment; filename=\"" ++
            ServerJs.sanitizeFilename ("Quiz - " ++ req.prompt.getD "") ++ ".pdf\"")) ∧
    (∀ (req : Part000.Req) (c2 : String) (tk : Option Nat),
      req.download = some "pdf" → jsTrim c2 ≠ "" →
      (Part000.assignmentHandler req (.success (some c2) tk)).2 =
        .pdf (jsTrim c2) "application/pdf"
          ("attachment; filename=\"" ++
            Part000.sanitizeFilename ("Assignment - " ++ jsShow req.prompt) ++ ".pdf\"")) ∧
    (∀ (req : Part000.Req) (c2 : String) (tk : Option Nat),
      req.download = some "pdf" → jsTrim c2 ≠ "" →
      (Part000.longAnswerHandler req (.success (some c2) tk)).2 =
        .pdf (jsTrim c2) "application/pdf"
          ("attachment; filename=\"" ++
            Part000.sanitizeFilename ("Long Answer - " ++ jsShow req.prompt) ++ ".pdf\"")) ∧
    (∀ (t : String), ∀ ch ∈ (ServerJs.sanitizeFilename t).data,
      ch.isAlphanum = true ∨ ch = '-') ∧
    (∀ (t : String), ∀ ch ∈ (Part000.sanitizeFilename t).data,
      (ch.isLower || ch.isDigit) = true ∨ ch = '-') := by
  refine ⟨?_, ?_, ?_, ?_, ?_, ?_, ?_⟩
  · intro req c2 tk hf hd h2
    have hok : (ServerJs.assignmentCall req (.success (some c2) tk)).2 =
        .ok ⟨c2, "openrouter", ServerJs.selectModel "assignment", tk.getD 0⟩ :=
      ServerJs.gen_success _ _ _ c2 tk hf (ServerJs.assignmentContext_ne_empty _ _ _) h2
    unfold ServerJs.assignmentHandler
    rw [if_neg hf, hok]
    simp only
    rw [if_pos hd]
    rfl
  · intro req c2 tk hf hd h2
    have hok : (ServerJs.longAnswerCall req (.success (some c2) tk)).2 =
        .ok ⟨c2, "openrouter", ServerJs.selectModel "long", tk.getD 0⟩ :=
      ServerJs.gen_success _ _ _ c2 tk hf (ServerJs.longAnswerContext_ne_empty _ _) h2
    unfold ServerJs.longAnswerHandler
    rw [if_neg hf, hok]
    simp only
    rw [if_pos hd]
    rfl
  · intro req c2 tk hf hd h2
    have hok : (ServerJs.quizCall req (.success (some c2) tk)).2 =
        .ok ⟨c2, "openrouter", ServerJs.selectModel "quiz", tk.getD 0⟩ :=
      ServerJs.gen_success _ _ _ c2 tk hf (ServerJs.quizContext_ne_empty _ _ _ _) h2
    unfold ServerJs.quizHandler
    rw [if_neg hf, hok]
    simp only
    rw [if_pos hd]
    rfl
  · intro req c2 tk hd h2
    have hok : (Part000.assignmentCall req (.success (some c2) tk)).2 =
        .ok ⟨jsTrim c2, "google/gemini-2.0-flash-exp:free"⟩ :=
      Part000.p0_gen_trim_ok _ _ _ c2 tk
        ⟨"google/gemini-2.0-flash-exp:free", "ASSIGNMENT"⟩ (by decide) h2
    unfold Part000.assignmentHandler
    rw [hok]
    simp only
    rw [if_pos hd]
    rfl
  · intro req c2 tk hd h2
    have hok : (Part000.longAnswerCall req (.success (some c2) tk)).2 =
        .ok ⟨jsTrim c2, "qwen/qwen3-coder:free"⟩ :=
      Part000.p0_gen_trim_ok _ _ _ c2 tk
        ⟨"qwen/qwen3-coder:free", "LONG_ANSWER"⟩ (by decide) h2
    unfold Part000.longAnswerHandler
    rw [hok]
    simp only
    rw [if_pos hd]
    rfl
  · intro t ch hch
    have hch2 : ch ∈ (t.data.map Char.toLower).map (fun c => if c.isAlphanum then c else '-') := hch
    rw [List.mem_map] at hch2
    obtain ⟨a, _, hfa⟩ := hch2
    by_cases ha : a.isAlphanum
    · left
      rw [← hfa, if_pos ha]
      exact ha
    · right
      rw [← hfa, if_neg ha]
  · intro t ch hch
    have hch2 : ch ∈ (t.data.map Char.toLower).map (fun c =>
        if c.isLower || c.isDigit then c else '-') := hch
    rw [List.mem_map] at hch2
    obtain ⟨a, _, hfa⟩ := hch2
    by_cases ha : (a.isLower || a.isDigit) = true
    · left
      rw [← hfa, if_pos ha]
      exact ha
    · right
      rw [← hfa, if_neg ha]

/-- C7 witness: a concrete quiz PDF download and a concrete part_000
assignment PDF download. -/
theorem c7_pdf_headers_witness :
    ((ServerJs.quizHandler ⟨some "Roman History", none, none, none, some "pdf"⟩
        (.success (some "Q1 ...") none)).2 =
      .pdf "Q1 ..." "application/pdf"
        ("attachment; filename=\"" ++
          ServerJs.sanitizeFilename ("Quiz - " ++ "Roman History") ++ ".pdf\"")) ∧
    ServerJs.sanitizeFilename ("Quiz - " ++ "Roman History") = "quiz---roman-history" ∧
    ((Part000.assignmentHandler ⟨some "Algebra", none, none, some "pdf"⟩
        (.success (some " Task 1 ") none)).2 =
      .pdf (jsTrim " Task 1 ") "application/pdf"
        ("attachment; filename=\"" ++
          Part000.sanitizeFilename ("Assignment - " ++ jsShow (some "Algebra")) ++ ".pdf\"")) :=
  ⟨c7_pdf_headers.2.2.1 ⟨some "Roman History", none, none, none, some "pdf"⟩ "Q1 ..." none
      (by decide) (by decide) (by decide),
    by decide,
    c7_pdf_headers.2.2.2.1 ⟨some "Algebra", none, none, some "pdf"⟩ " Task 1 " none
      (by decide) (by decide)⟩

/-- C8 counterexample: the limiter is mounted only on `/generate-*`, so
the generation endpoints `/fix-grammar` and `/chat` are not rate-limited
at all — 101 same-client `/chat` requests at one instant are all
forwarded to the handler, none is rejected. -/
theorem c8_chat_not_rate_limited :
    routeUsesLimiter "/chat" = false ∧
    routeUsesLimiter "/fix-grammar" = false ∧
    (gateSeq (initState 0) (List.replicate 101 (0, "/chat"))).2 =
      List.replicate 101 true := by
  decide

/-- C8 (amended): for one client address, of 101 requests inside a single
fixed 15-minute window to a path matched by the `/generate-*` limiter
mount the first 100 are accepted and the 101st is rejected; the rejection
answers 429 with the configured message and never reaches the handler (no
upstream call); the mount covers the four `/generate-...` endpoints but
not `/fix-grammar` or `/chat`. -/
theorem c8_fixed_window_quota :
    (∀ (t0 : Nat) (ts : List Nat), ts.length = 101 → (∀ t ∈ ts, t < t0 + windowMs) →
      (processRequests (initState t0) ts).2.take 100 = List.replicate 100 true ∧
      (processRequests (initState t0) ts).2.getLast? = some false) ∧
    (∀ (st : LimiterState) (now : Nat) (req : ServerJs.AssignmentReq) (u : UpstreamOutcome),
      (limiterStep st now).2 = false →
      limitedAssignment st now req u =
        ((limiterStep st now).1, ([], .rateLimited rateLimitMessage)) ∧
      (limitedAssignment st now req u).2.2.status = 429) ∧
    (routeUsesLimiter "/generate-assignment" = true ∧
      routeUsesLimiter "/generate-long-answer" = true ∧
      routeUsesLimiter "/generate-short-answer" = true ∧
      routeUsesLimiter "/generate-quiz" = true) := by
  refine ⟨?_, ?_, by decide⟩
  · intro t0 ts hlen hin
    have hw := processRequests_in_window ts (initState t0) hin
    have h0 : (initState t0).count = 0 := rfl
    obtain ⟨-, -, hres⟩ := hw
    rw [h0] at hres
    rw [hres, hlen]
    constructor
    · decide
    · decide
  · intro st now req u h
    refine ⟨limitedAssignment_rejected st now req u h, ?_⟩
    rw [limitedAssignment_rejected st now req u h]
    rfl

/-- C8 witness: 101 concrete simultaneous requests and a concrete
at-quota limiter state. -/
theorem c8_fixed_window_quota_witness :
    ((List.replicate 101 0 : List Nat).length = 101 ∧
      (∀ t ∈ (List.replicate 101 0 : List Nat), t < 0 + windowMs) ∧
      (processRequests (initState 0) (List.replicate 101 0)).2.take 100 =
        List.replicate 100 true ∧
      (processRequests (initState 0) (List.replicate 101 0)).2.getLast? = some false) ∧
    ((limiterStep ⟨0, 100⟩ 0).2 = false ∧
      limitedAssignment ⟨0, 100⟩ 0 ⟨some "p", none, none, none⟩ (.success (some "hi") none) =
        ((limiterStep ⟨0, 100⟩ 0).1, ([], .rateLimited rateLimitMessage))) :=
  ⟨⟨by decide, by decide,
    (c8_fixed_window_quota.1 0 (List.replicate 101 0) (by decide) (by decide)).1,
    (c8_fixed_window_quota.1 0 (List.replicate 101 0) (by decide) (by decide)).2⟩,
    ⟨by decide,
    (c8_fixed_window_quota.2.1 ⟨0, 100⟩ 0 ⟨some "p", none, none, none⟩
      (.success (some "hi") none) (by decide)).1⟩⟩

theorem Part000.p0_gen_ok_trimmed (prompt : Option String) (c pref : String)
    (u : UpstreamOutcome) (g : Part000.GenResult)
    (h : (Part000.generateAIResponse prompt c pref u).2 = .ok g) :
    ∃ s : String, g.text = jsTrim s := by
  unfold Part000.generateAIResponse at h
  split at h
  · simp at h
  · simp only at h
    split at h
    · rename_i g2 heq2
      rw [Except.ok.injEq] at h
      subst h
      unfold Part000.tryBody at heq2
      split at heq2
      · exact absurd heq2 (by simp)
      · split at heq2
        · exact absurd heq2 (by simp)
        · split at heq2
          · exact absurd heq2 (by simp)
          · rename_i ctext hns
            rw [Except.ok.injEq] at heq2
            subst heq2
            exact ⟨ctext, rfl⟩
    · simp at h

/-- C9: in the part_000 variant a successful generation returns the
upstream content with leading and trailing whitespace trimmed — so the
returned text never begins or ends with a whitespace character — and an
upstream response consisting only of whitespace takes exactly the
empty-response path: the `try` body throws `AI response khaali mila.` and
the whole generator behaves identically to an empty response. -/
theorem c9_part000_trims_output :
    (∀ (prompt : Option String) (c pref ctext : String) (tk : Option Nat)
        (cfg : Part000.TaskCfg),
      Part000.taskConfig pref = some cfg → jsTrim ctext ≠ "" →
      (Part000.generateAIResponse prompt c pref (.success (some ctext) tk)).2 =
        .ok ⟨jsTrim ctext, cfg.model⟩) ∧
    (∀ (prompt : Option String) (c pref : String) (u : UpstreamOutcome)
        (g : Part000.GenResult),
      (Part000.generateAIResponse prompt c pref u).2 = .ok g →
      (∀ a, g.text.data.head? = some a → isJsWhitespace a = false) ∧
      (∀ a, g.text.data.getLast? = some a → isJsWhitespace a = false)) ∧
    (∀ (cfg : Part000.TaskCfg) (ctext : String) (tk : Option Nat),
      (∀ a ∈ ctext.data, isJsWhitespace a = true) →
      Part000.tryBody cfg (.success (some ctext) tk) =
        .error ⟨none, "AI response khaali mila."⟩ ∧
      ∀ (prompt : Option String) (c pref : String),
        Part000.generateAIResponse prompt c pref (.success (some ctext) tk) =
          Part000.generateAIResponse prompt c pref (.success (some "") tk)) := by
  refine ⟨?_, ?_, ?_⟩
  · intro prompt c pref ctext tk cfg hcfg ht
    exact Part000.p0_gen_trim_ok prompt c pref ctext tk cfg hcfg ht
  · intro prompt c pref u g h
    obtain ⟨s, hs⟩ := Part000.p0_gen_ok_trimmed prompt c pref u g h
    rw [hs]
    constructor
    · intro a ha
      exact jsTrimList_head_not_ws s.data a ha
    · intro a ha
      exact jsTrimList_getLast_not_ws s.data a ha
  · intro cfg ctext tk hws
    have htrim : jsTrim ctext = "" := jsTrim_eq_empty_of_all_ws ctext hws
    constructor
    · unfold Part000.tryBody
      simp [htrim]
    · intro prompt c pref
      unfold Part000.generateAIResponse Part000.tryBody
      have h0 : jsTrim "" = "" := by decide
      cases htc : Part000.taskConfig pref with
      | none => rfl
      | some cfg2 => simp [htrim, h0]

/-- C9 witness: concrete trimmed and whitespace-only upstream contents. -/
theorem c9_part000_trims_output_witness :
    (Part000.taskConfig "short" = some ⟨"google/gemma-3n-e2b-it:free", "SHORT_ANSWER"⟩ ∧
      jsTrim "  two sentences.  " ≠ "" ∧
      (Part000.generateAIResponse (some "p") "c" "short"
          (.success (some "  two sentences.  ") none)).2 =
        .ok ⟨jsTrim "  two sentences.  ", "google/gemma-3n-e2b-it:free"⟩ ∧
      jsTrim "  two sentences.  " = "two sentences.") ∧
    ((∀ a ∈ ("  \t\n " : String).data, isJsWhitespace a = true) ∧
      Part000.tryBody ⟨"google/gemma-3n-e2b-it:free", "SHORT_ANSWER"⟩
        (.success (some "  \t\n ") none) = .error ⟨none, "AI response khaali mila."⟩) :=
  ⟨⟨by decide, by decide,
    c9_part000_trims_output.1 (some "p") "c" "short" "  two sentences.  " none
      ⟨"google/gemma-3n-e2b-it:free", "SHORT_ANSWER"⟩ (by decide) (by decide),
    by decide⟩,
    ⟨by decide,
    (c9_part000_trims_output.2.2 ⟨"google/gemma-3n-e2b-it:free", "SHORT_ANSWER"⟩
      "  \t\n " none (by decide)).1⟩⟩

/-- C10: the server.js `/chat` handler sends upstream a system context
embedding `JSON.stringify(history.slice(-3))` — at most the last three
history entries, and all of them when there are three or fewer; a
successful response carries `conversationLength = history.length + 1`,
and omitted `history` and `studentLevel` body fields behave exactly as
the empty array and `high-school`. -/
theorem c10_chat_history_window :
    (∀ (req : ServerJs.ChatReq) (u : UpstreamOutcome), ¬ req.message.getD "" = "" →
      (ServerJs.chatHandler req u).1 =
        [⟨"z-ai/glm-4.5-air:free",
          ServerJs.chatContext (req.studentLevel.getD "high-school")
            (ServerJs.jsonStringifyArr (ServerJs.jsSliceLast3 (req.history.getD []))),
          some (req.message.getD ""), 7, 2048⟩]) ∧
    (∀ (l : List String), (ServerJs.jsSliceLast3 l).length ≤ 3) ∧
    (∀ (l : List String), l.length ≤ 3 → ServerJs.jsSliceLast3 l = l) ∧
    (∀ (req : ServerJs.ChatReq) (u : UpstreamOutcome) (g : ServerJs.GenResult),
      ¬ req.message.getD "" = "" → (ServerJs.chatCall req u).2 = .ok g →
      ServerJs.chatHandler req u = ((ServerJs.chatCall req u).1,
        .ok ⟨g.text, g.source, g.modelUsed, g.tokens, "tutor-response",
          req.studentLevel.getD "high-school", (req.history.getD []).length + 1⟩)) ∧
    (∀ (message : Option String) (u : UpstreamOutcome),
      ServerJs.chatHandler ⟨message, none, none⟩ u =
        ServerJs.chatHandler ⟨message, some [], some "high-school"⟩ u) := by
  refine ⟨?_, ?_, ?_, ?_, ?_⟩
  · intro req u hf
    unfold ServerJs.chatHandler
    rw [if_neg hf]
    exact ServerJs.gen_calls _ _ _ _
      (fun hcon => hf hcon) (ServerJs.chatContext_ne_empty _ _)
  · intro l
    exact jsSliceLast3_length l
  · intro l h
    exact jsSliceLast3_of_short l h
  · intro req u g hf hok
    exact ServerJs.chat_ok_payload req u g hf hok
  · intro message u
    rfl

/-- C10 witness: a concrete chat request with a five-entry history. -/
theorem c10_chat_history_window_witness :
    (¬ ((⟨some "hi", some ["e1", "e2", "e3", "e4", "e5"], none⟩ :
          ServerJs.ChatReq).message.getD "" = "") ∧
      (ServerJs.chatHandler ⟨some "hi", some ["e1", "e2", "e3", "e4", "e5"], none⟩
          (.success (some "ok") none)).1 =
        [⟨"z-ai/glm-4.5-air:free",
          ServerJs.chatContext "high-school"
            (ServerJs.jsonStringifyArr
              (ServerJs.jsSliceLast3 ["e1", "e2", "e3", "e4", "e5"])),
          some "hi", 7, 2048⟩]) ∧
    ServerJs.jsSliceLast3 ["e1", "e2", "e3", "e4", "e5"] = ["e3", "e4", "e5"] ∧
    ((ServerJs.chatCall ⟨some "hi", some ["e1", "e2", "e3", "e4", "e5"], none⟩
        (.success (some "ok") none)).2 =
      .ok ⟨"ok", "openrouter", "z-ai/glm-4.5-air:free", 0⟩ ∧
      ServerJs.chatHandler ⟨some "hi", some ["e1", "e2", "e3", "e4", "e5"], none⟩
          (.success (some "ok") none) =
        ((ServerJs.chatCall ⟨some "hi", some ["e1", "e2", "e3", "e4", "e5"], none⟩
            (.success (some "ok") none)).1,
          .ok ⟨"ok", "openrouter", "z-ai/glm-4.5-air:free", 0, "tutor-response",
            "high-school", 6⟩)) :=
  ⟨⟨by decide,
    c10_chat_history_window.1 ⟨some "hi", some ["e1", "e2", "e3", "e4", "e5"], none⟩
      (.success (some "ok") none) (by decide)⟩,
    by decide,
    by decide,
    c10_chat_history_window.2.2.2.1 ⟨some "hi", some ["e1", "e2", "e3", "e4", "e5"], none⟩
      (.success (some "ok") none) ⟨"ok", "openrouter", "z-ai/glm-4.5-air:free", 0⟩
      (by decide) (by decide)⟩
